import Mathlib

/-!
# litecart: payment orchestration handlers

A shallow embedding of `internal/handlers/public/cart.go` (the handlers
`Payment`, `PaymentCallback`, `PaymentSuccess`, `PaymentCancel`).

A handler is a function of the request context, the database handle with its
current state, and the outside world (payment providers, mailer, webhook sink,
random source, clock).  It returns the HTTP response, the database state after
the request, and the ordered list of calls it made to its collaborators, each
with the outcome it observed.

The packages `queries`, `models`, `mailer`, `webhook`, `litepay`, `security`
and `webutil` are not part of the sources at hand.  Their functions are taken
as parameters (`DB`, `Env`); their record types carry the fields the handlers
read or write.
-/

set_option linter.dupNamespace false

namespace Litecart

/-- Go `error` values, kept as their message. -/
abbrev Err := String

/-- Go `int` arithmetic: a 64-bit two's complement result. -/
def wrapInt (x : Int) : Int := (x + 9223372036854775808) % 18446744073709551616 - 9223372036854775808

/-- Values a Go `int` can hold. -/
def inInt (x : Int) : Prop := -9223372036854775808 ≤ x ∧ x < 9223372036854775808

/-- Go conversion `rune(n)` of an `int`: the low 32 bits, signed. -/
def toRune (n : Int) : Int := (n + 2147483648) % 4294967296 - 2147483648

/-- Go conversion `string(r)` of a rune: the one-code-point string of `r`, and
the replacement character U+FFFD when `r` is not a valid code point. -/
def runeString (r : Int) : String :=
  if (0 ≤ r ∧ r < 55296) ∨ (57344 ≤ r ∧ r ≤ 1114111) then
    String.singleton (Char.ofNat r.toNat)
  else
    String.singleton (Char.ofNat 65533)

namespace litepay

/-- Type `litepay.Status`, a Go string type; its zero value is the empty string. -/
abbrev Status := String

/-- Type `litepay.PaymentSystem`, a Go string type. -/
abbrev PaymentSystem := String

/-- Constant `litepay.NEW`. -/
def NEW : Status := "new"
/-- Constant `litepay.PAID`; `PaymentSuccess` compares the stored status with the literal "paid". -/
def PAID : Status := "paid"
/-- Constant `litepay.CANCELED`. -/
def CANCELED : Status := "canceled"
/-- Constant `litepay.FAILED`. -/
def FAILED : Status := "failed"

/-- Constant `litepay.STRIPE`. -/
def STRIPE : PaymentSystem := "stripe"
/-- Constant `litepay.PAYPAL`. -/
def PAYPAL : PaymentSystem := "paypal"
/-- Constant `litepay.SPECTROCOIN`. -/
def SPECTROCOIN : PaymentSystem := "spectrocoin"

/-- Record `litepay.Product`. -/
structure Product where
  Name : String := ""
  Description : String := ""
  Images : List String := []
  deriving DecidableEq

/-- Record `litepay.Price`. -/
structure Price where
  UnitAmount : Int := 0
  Product : Product := {}
  deriving DecidableEq

/-- Record `litepay.Item`. -/
structure Item where
  PriceData : Price := {}
  Quantity : Int := 0
  deriving DecidableEq

/-- Record `litepay.Cart`, the cart handed to a provider session. -/
structure Cart where
  ID : String := ""
  Currency : String := ""
  Items : List Item := []
  deriving DecidableEq

/-- Record `litepay.Coin`; the received amount is kept as the text that arrived. -/
structure Coin where
  AmountTotal : String := ""
  Currency : String := ""
  deriving DecidableEq

/-- Record `litepay.Payment`. -/
structure Payment where
  CartID : String := ""
  PaymentSystem : PaymentSystem := ""
  MerchantID : String := ""
  Status : Status := ""
  Coin : Option Coin := none
  deriving DecidableEq

/-- Record `litepay.CallbackSpectrocoin`, the parsed body of a Spectrocoin callback. -/
structure CallbackSpectrocoin where
  Status : Int := 0
  MerchantApiID : String := ""
  ReceiveAmount : String := ""
  ReceiveCurrency : String := ""
  deriving DecidableEq

/-- Result of `litepay.New(callbackURL, successURL, cancelURL)`. -/
structure Pay where
  callbackURL : String
  successURL : String
  cancelURL : String
  deriving DecidableEq

/-- Function `litepay.New`. -/
def New (callbackURL successURL cancelURL : String) : Pay :=
  { callbackURL := callbackURL, successURL := successURL, cancelURL := cancelURL }

/-- A provider session: `pay.Stripe(key)`, `pay.Paypal(id, key)` or
`pay.Spectrocoin(merchant, project, key)`. -/
structure Session where
  pay : Pay
  system : PaymentSystem
  keys : List String
  deriving DecidableEq

/-- Method `Pay.Stripe`. -/
def Pay.Stripe (p : Pay) (secretKey : String) : Session :=
  { pay := p, system := STRIPE, keys := [secretKey] }

/-- Method `Pay.Paypal`. -/
def Pay.Paypal (p : Pay) (clientID secretKey : String) : Session :=
  { pay := p, system := PAYPAL, keys := [clientID, secretKey] }

/-- Method `Pay.Spectrocoin`. -/
def Pay.Spectrocoin (p : Pay) (merchantID projectID privateKey : String) : Session :=
  { pay := p, system := SPECTROCOIN, keys := [merchantID, projectID, privateKey] }

end litepay

namespace models

/-- Record `models.CartProduct`: one line of the client's cart. -/
structure CartProduct where
  ProductID : String := ""
  Quantity : Int := 0
  deriving DecidableEq

/-- Record `models.CartPayment`: the parsed body of an initiation request. -/
structure CartPayment where
  Email : String := ""
  Provider : litepay.PaymentSystem := ""
  Products : List CartProduct := []
  deriving DecidableEq

/-- An image of a catalogue product. -/
structure File where
  Name : String := ""
  Ext : String := ""
  deriving DecidableEq

/-- Record `models.Product`: a catalogue product. -/
structure Product where
  ID : String := ""
  Name : String := ""
  Description : String := ""
  Amount : Int := 0
  Images : List File := []
  deriving DecidableEq

/-- Record `models.Cart`: a row of the cart store (`Core.ID` is flattened into `ID`). -/
structure Cart where
  ID : String := ""
  Email : String := ""
  Cart : List CartProduct := []
  AmountTotal : Int := 0
  Currency : String := ""
  PaymentID : String := ""
  PaymentStatus : litepay.Status := ""
  PaymentSystem : litepay.PaymentSystem := ""
  deriving DecidableEq

/-- Record `models.Stripe`. -/
structure Stripe where
  Active : Bool := false
  SecretKey : String := ""
  deriving DecidableEq

/-- Record `models.Paypal`. -/
structure Paypal where
  Active : Bool := false
  ClientID : String := ""
  SecretKey : String := ""
  deriving DecidableEq

/-- Record `models.Spectrocoin`. -/
structure Spectrocoin where
  Active : Bool := false
  MerchantID : String := ""
  ProjectID : String := ""
  PrivateKey : String := ""
  deriving DecidableEq

end models

namespace webhook

/-- Type `webhook.Event`, a Go string type. -/
abbrev Event := String

/-- Constant `webhook.PAYMENT_INITIATION`. -/
def PAYMENT_INITIATION : Event := "payment_initiation"
/-- Constant `webhook.PAYMENT_CALLBACK`. -/
def PAYMENT_CALLBACK : Event := "payment_callback"
/-- Constant `webhook.PAYMENT_SUCCESS`. -/
def PAYMENT_SUCCESS : Event := "payment_success"
/-- Constant `webhook.PAYMENT_CANCEL`. -/
def PAYMENT_CANCEL : Event := "payment_cancel"

/-- Record `webhook.Data`. -/
structure Data where
  PaymentSystem : litepay.PaymentSystem := ""
  PaymentStatus : litepay.Status := ""
  CartID : String := ""
  TotalAmount : Int := 0
  Currency : String := ""
  CartItems : List litepay.Item := []
  deriving DecidableEq

/-- Record `webhook.Payment`: the outbound webhook payload. -/
structure Payment where
  Event : Event := ""
  TimeStamp : Int := 0
  Data : Data := {}
  deriving DecidableEq

end webhook

/-- What a handler hands back to fiber; `Json` is `webutil.Response`. -/
inductive Response where
  | Json (status : Nat) (message : String) (data : String)
  | StatusBadRequest (message : Option String)
  | StatusInternalServerError
  | StatusNotFound
  | Redirect (location : String)
  | Render (name : String) (layout : String)
  | SendString (status : Nat) (body : String)
  deriving DecidableEq

/-- HTTP status code of a response. -/
def Response.code : Response → Nat
  | .Json status _ _ => status
  | .StatusBadRequest _ => 400
  | .StatusInternalServerError => 500
  | .StatusNotFound => 404
  | .Redirect _ => 302
  | .Render _ _ => 200
  | .SendString status _ => status

/-- One call of a handler to a collaborator, with the outcome the handler saw
(`ok = true` when the returned error was nil). -/
inductive Call where
  | GetSettingByKey (ok : Bool)
  | ListProducts (products : List models.CartProduct) (ok : Bool)
  | GetSettingByGroup (system : litepay.PaymentSystem) (ok : Bool)
  | Pay (session : litepay.Session) (cart : litepay.Cart) (ok : Bool)
  | Checkout (session : litepay.Session) (payment : litepay.Payment) (token : String)
      (result : Option litepay.Payment)
  | Cart (id : String) (ok : Bool)
  | AddCart (cart : models.Cart) (ok : Bool)
  | UpdateCart (cart : models.Cart) (ok : Bool)
  | SendPrepaymentLetter (email : String) (amountTotal : Int) (currency : String)
      (paymentURL : String) (ok : Bool)
  | SendCartLetter (cartID : String) (ok : Bool)
  | SendPaymentHook (hook : webhook.Payment) (ok : Bool)
  deriving DecidableEq

/-- Calls to a payment provider (`session.Pay`, `Checkout`). -/
def Call.isProvider : Call → Bool
  | .Pay _ _ _ => true
  | .Checkout _ _ _ _ => true
  | _ => false

/-- Writes to the cart store (`AddCart`, `UpdateCart`). -/
def Call.isWrite : Call → Bool
  | .AddCart _ _ => true
  | .UpdateCart _ _ => true
  | _ => false

/-- Reads of the cart store (`db.Cart`). -/
def Call.isCartRead : Call → Bool
  | .Cart _ _ => true
  | _ => false

/-- Emails (`mailer.SendPrepaymentLetter`, `mailer.SendCartLetter`). -/
def Call.isEmail : Call → Bool
  | .SendPrepaymentLetter _ _ _ _ _ => true
  | .SendCartLetter _ _ => true
  | _ => false

/-- Receipt emails (`mailer.SendCartLetter`). -/
def Call.isReceipt : Call → Bool
  | .SendCartLetter _ _ => true
  | _ => false

/-- Webhooks (`webhook.SendPaymentHook`). -/
def Call.isHook : Call → Bool
  | .SendPaymentHook _ _ => true
  | _ => false

/-- The webhook payloads sent, in order. -/
def hooksOf : List Call → List webhook.Payment
  | [] => []
  | .SendPaymentHook hook _ :: rest => hook :: hooksOf rest
  | _ :: rest => hooksOf rest

/-- The rows handed to `AddCart`, in order. -/
def addedCarts : List Call → List models.Cart
  | [] => []
  | .AddCart cart _ :: rest => cart :: addedCarts rest
  | _ :: rest => addedCarts rest

/-- The rows handed to `UpdateCart`, in order. -/
def updatedCarts : List Call → List models.Cart
  | [] => []
  | .UpdateCart cart _ :: rest => cart :: updatedCarts rest
  | _ :: rest => updatedCarts rest

/-- Calls that change nothing outside the process: no store write, no email,
no webhook. -/
def quiet (x : Call) : Prop := x.isWrite = false ∧ x.isEmail = false ∧ x.isHook = false

/-- The request context `*fiber.Ctx`: `Query` returns the empty string for an
absent parameter; the two bodies are the results of `c.BodyParser`. -/
structure Ctx where
  Query : String → String
  BodyCartPayment : Except Err models.CartPayment
  BodyCallbackSpectrocoin : Except Err litepay.CallbackSpectrocoin

/-- The database handle `queries.DB()` over a store state `σ`.  A write that
returns an error leaves the state as it was. -/
structure DB (σ : Type) where
  GetSettingByKey : σ → Except Err (String × String)
  ListProducts : σ → List models.CartProduct → Except Err (List models.Product)
  GetSettingStripe : σ → Except Err models.Stripe
  GetSettingPaypal : σ → Except Err models.Paypal
  GetSettingSpectrocoin : σ → Except Err models.Spectrocoin
  Cart : σ → String → Except Err models.Cart
  AddCart : σ → models.Cart → Except Err σ
  UpdateCart : σ → models.Cart → Except Err σ

/-- The world outside the process, as seen during one request. -/
structure Env where
  RandomString : String
  Now : Int
  Pay : litepay.Session → litepay.Cart → Except Err String
  Checkout : litepay.Session → litepay.Payment → String → Except Err litepay.Payment
  Validate : litepay.Payment → Option Err
  StatusPayment : litepay.PaymentSystem → String → litepay.Status
  SendPrepaymentLetter : String → Int → String → String → Option Err
  SendCartLetter : String → Option Err
  SendPaymentHook : webhook.Payment → Option Err

/-- Result of running a handler. -/
structure Outcome (σ : Type) where
  resp : Response
  db : σ
  calls : List Call

/-- Lines 67-72 of `Payment`: the quantity of a catalogue product is 1 unless a
cart line names it, and then the quantity of the last such line. -/
def quantityOf (cartProducts : List models.CartProduct) (productID : String) : Int :=
  cartProducts.foldl
    (fun quantity cartProduct =>
      if cartProduct.ProductID = productID then cartProduct.Quantity else quantity) 1

/-- Lines 60-88 of `Payment`: the provider item built for one catalogue product. -/
def buildItem (domain : String) (cartProducts : List models.CartProduct)
    (product : models.Product) : litepay.Item :=
  { PriceData :=
      { UnitAmount := product.Amount
        Product :=
          { Name := product.Name
            Images := product.Images.map
              (fun image => "https://" ++ domain ++ "/uploads/" ++ image.Name ++ "_md." ++ image.Ext)
            Description := if product.Description ≠ "" then product.Description else "" } }
    Quantity := quantityOf cartProducts product.ID }

/-- Lines 159-162 of `Payment`: the total, accumulated in Go `int` arithmetic. -/
def amountTotal (items : List litepay.Item) : Int :=
  items.foldl (fun total s => wrapInt (total + wrapInt (s.PriceData.UnitAmount * s.Quantity))) 0

/-- Lines 164-174 of `Payment`: the row handed to `AddCart`. -/
def Payment.row (payment : models.CartPayment) (cart : litepay.Cart) : models.Cart :=
  { ID := cart.ID
    Email := payment.Email
    Cart := payment.Products
    AmountTotal := amountTotal cart.Items
    Currency := cart.Currency
    PaymentStatus := litepay.NEW
    PaymentSystem := payment.Provider }

/-- Lines 183-194 of `Payment`: the initiation webhook. -/
def Payment.hook (E : Env) (payment : models.CartPayment) (cart : litepay.Cart) :
    webhook.Payment :=
  { Event := webhook.PAYMENT_INITIATION
    TimeStamp := E.Now
    Data :=
      { PaymentSystem := payment.Provider
        PaymentStatus := litepay.NEW
        CartID := cart.ID
        TotalAmount := amountTotal cart.Items
        Currency := cart.Currency
        CartItems := cart.Items } }

/-- Lines 159-200 of `Payment`: total, `AddCart` (its error is not looked at),
prepayment email, initiation webhook.  The text of the amount in the email,
`"%.2f %s"` of the total over 100 and the currency, is left to the mailer,
which is handed the total and the currency. -/
def Payment.finish {σ : Type} (E : Env) (D : DB σ) (s : σ) (payment : models.CartPayment)
    (cart : litepay.Cart) (paymentURL : String) (pre : List Call) : Outcome σ :=
  let total := amountTotal cart.Items
  let row := Payment.row payment cart
  let added : σ × Bool :=
    match D.AddCart s row with
    | .ok s1 => (s1, true)
    | .error _ => (s, false)
  let log1 := pre ++ [Call.AddCart row added.2]
  match E.SendPrepaymentLetter payment.Email total cart.Currency paymentURL with
  | some _ =>
    { resp := .StatusInternalServerError, db := added.1
      calls := log1 ++ [.SendPrepaymentLetter payment.Email total cart.Currency paymentURL false] }
  | none =>
    let log2 := log1 ++ [.SendPrepaymentLetter payment.Email total cart.Currency paymentURL true]
    let hook := Payment.hook E payment cart
    match E.SendPaymentHook hook with
    | some _ =>
      { resp := .StatusInternalServerError, db := added.1
        calls := log2 ++ [.SendPaymentHook hook false] }
    | none =>
      { resp := .Json 200 "Payment url" paymentURL, db := added.1
        calls := log2 ++ [.SendPaymentHook hook true] }

/-- Lines 101-157 of `Payment`: the provider switch.  It either returns from
the handler (`.error`, with the outcome returned) or goes on with the payment
URL (`.ok`, with the URL and the calls made so far). -/
def Payment.session {σ : Type} (E : Env) (D : DB σ) (s : σ) (pay : litepay.Pay)
    (cart : litepay.Cart) (paymentURL : String) (paymentSystem : litepay.PaymentSystem)
    (log0 : List Call) : Except (Outcome σ) (String × List Call) :=
  if paymentSystem = litepay.STRIPE then
    match D.GetSettingStripe s with
    | .error _ =>
      .error { resp := .StatusInternalServerError, db := s
               calls := log0 ++ [.GetSettingByGroup litepay.STRIPE false] }
    | .ok setting =>
    let log1 := log0 ++ [.GetSettingByGroup litepay.STRIPE true]
    if !setting.Active then
      .error { resp := .Json 200 "Payment url" paymentURL, db := s, calls := log1 }
    else
      let session := pay.Stripe setting.SecretKey
      match E.Pay session cart with
      | .error _ =>
        .error { resp := .StatusInternalServerError, db := s
                 calls := log1 ++ [.Pay session cart false] }
      | .ok url => .ok (url, log1 ++ [.Pay session cart true])
  else if paymentSystem = litepay.PAYPAL then
    match D.GetSettingPaypal s with
    | .error _ =>
      .error { resp := .StatusInternalServerError, db := s
               calls := log0 ++ [.GetSettingByGroup litepay.PAYPAL false] }
    | .ok setting =>
    let log1 := log0 ++ [.GetSettingByGroup litepay.PAYPAL true]
    if !setting.Active then
      .error { resp := .Json 200 "Payment url" paymentURL, db := s, calls := log1 }
    else
      let session := pay.Paypal setting.ClientID setting.SecretKey
      match E.Pay session cart with
      | .error _ =>
        .error { resp := .StatusInternalServerError, db := s
                 calls := log1 ++ [.Pay session cart false] }
      | .ok url => .ok (url, log1 ++ [.Pay session cart true])
  else if paymentSystem = litepay.SPECTROCOIN then
    match D.GetSettingSpectrocoin s with
    | .error _ =>
      .error { resp := .StatusInternalServerError, db := s
               calls := log0 ++ [.GetSettingByGroup litepay.SPECTROCOIN false] }
    | .ok setting =>
    let log1 := log0 ++ [.GetSettingByGroup litepay.SPECTROCOIN true]
    if !setting.Active then
      .error { resp := .Json 200 "Payment url" paymentURL, db := s, calls := log1 }
    else
      let session := pay.Spectrocoin setting.MerchantID setting.ProjectID setting.PrivateKey
      match E.Pay session cart with
      | .error _ =>
        .error { resp := .StatusInternalServerError, db := s
                 calls := log1 ++ [.Pay session cart false] }
      | .ok url => .ok (url, log1 ++ [.Pay session cart true])
  else
    .ok (paymentURL, log0)

/-- Handler `Payment`, `[post] /cart/payment`. -/
def Payment {σ : Type} (E : Env) (D : DB σ) (s : σ) (c : Ctx) : Outcome σ :=
  match c.BodyCartPayment with
  | .error e => { resp := .StatusBadRequest (some e), db := s, calls := [] }
  | .ok payment =>
  match D.GetSettingByKey s with
  | .error _ => { resp := .StatusInternalServerError, db := s, calls := [.GetSettingByKey false] }
  | .ok (domain, currency) =>
  match D.ListProducts s payment.Products with
  | .error _ =>
    { resp := .StatusInternalServerError, db := s
      calls := [.GetSettingByKey true, .ListProducts payment.Products false] }
  | .ok products =>
  let log0 : List Call := [.GetSettingByKey true, .ListProducts payment.Products true]
  let items := products.map (buildItem domain payment.Products)
  let cart : litepay.Cart := { ID := E.RandomString, Currency := currency, Items := items }
  let callbackURL := "https://" ++ domain ++ "/cart/payment/callback"
  let successURL := "https://" ++ domain ++ "/cart/payment/success"
  let cancelURL := "https://" ++ domain ++ "/cart/payment/cancel"
  let pay := litepay.New callbackURL successURL cancelURL
  let paymentURL := "https://" ++ domain ++ "/cart"
  let paymentSystem := payment.Provider
  match Payment.session E D s pay cart paymentURL paymentSystem log0 with
  | .error returned => returned
  | .ok (url, log1) => Payment.finish E D s payment cart url log1

/-- Lines 230-237, 340-347: the row `PaymentCallback` and `PaymentSuccess` hand
to `UpdateCart`. -/
def statusRow (payment : litepay.Payment) : models.Cart :=
  { ID := payment.CartID
    PaymentID := payment.MerchantID
    PaymentStatus := payment.Status
    PaymentSystem := payment.PaymentSystem }

/-- Lines 252-260, 362-370: the webhook of `PaymentCallback` and `PaymentSuccess`. -/
def statusHook (E : Env) (event : webhook.Event) (payment : litepay.Payment) : webhook.Payment :=
  { Event := event
    TimeStamp := E.Now
    Data :=
      { PaymentSystem := payment.PaymentSystem
        PaymentStatus := payment.Status
        CartID := payment.CartID } }

/-- Lines 229-266 of `PaymentCallback`: store update, receipt email when the
status is PAID, callback webhook, acknowledgement. -/
def PaymentCallback.finish {σ : Type} (E : Env) (D : DB σ) (s : σ) (payment : litepay.Payment) :
    Outcome σ :=
  let row := statusRow payment
  match D.UpdateCart s row with
  | .error _ => { resp := .StatusInternalServerError, db := s, calls := [.UpdateCart row false] }
  | .ok s1 =>
  let log1 : List Call := [.UpdateCart row true]
  let hook := statusHook E webhook.PAYMENT_CALLBACK payment
  if payment.Status = litepay.PAID then
    match E.SendCartLetter payment.CartID with
    | some _ =>
      { resp := .StatusInternalServerError, db := s1
        calls := log1 ++ [.SendCartLetter payment.CartID false] }
    | none =>
      let log2 := log1 ++ [.SendCartLetter payment.CartID true]
      match E.SendPaymentHook hook with
      | some _ =>
        { resp := .StatusInternalServerError, db := s1
          calls := log2 ++ [.SendPaymentHook hook false] }
      | none =>
        { resp := .SendString 200 "*ok*", db := s1, calls := log2 ++ [.SendPaymentHook hook true] }
  else
    match E.SendPaymentHook hook with
    | some _ =>
      { resp := .StatusInternalServerError, db := s1
        calls := log1 ++ [.SendPaymentHook hook false] }
    | none =>
      { resp := .SendString 200 "*ok*", db := s1, calls := log1 ++ [.SendPaymentHook hook true] }

/-- Handler `PaymentCallback`, `[get] /cart/payment/callback`. -/
def PaymentCallback {σ : Type} (E : Env) (D : DB σ) (s : σ) (c : Ctx) : Outcome σ :=
  let payment : litepay.Payment :=
    { CartID := c.Query "cart_id", PaymentSystem := c.Query "payment_system" }
  if payment.PaymentSystem = litepay.SPECTROCOIN then
    match c.BodyCallbackSpectrocoin with
    | .error e => { resp := .StatusBadRequest (some e), db := s, calls := [] }
    | .ok response =>
      PaymentCallback.finish E D s
        { payment with
          Status := E.StatusPayment litepay.SPECTROCOIN (runeString (toRune response.Status))
          MerchantID := response.MerchantApiID
          Coin := some { AmountTotal := response.ReceiveAmount, Currency := response.ReceiveCurrency } }
  else
    PaymentCallback.finish E D s payment

/-- Lines 340-376 of `PaymentSuccess`: store update, receipt email when the
status is PAID, success webhook, success page. -/
def PaymentSuccess.finish {σ : Type} (E : Env) (D : DB σ) (s : σ) (payment : litepay.Payment)
    (pre : List Call) : Outcome σ :=
  let row := statusRow payment
  match D.UpdateCart s row with
  | .error _ =>
    { resp := .StatusInternalServerError, db := s, calls := pre ++ [.UpdateCart row false] }
  | .ok s1 =>
  let log1 : List Call := pre ++ [.UpdateCart row true]
  let hook := statusHook E webhook.PAYMENT_SUCCESS payment
  if payment.Status = litepay.PAID then
    match E.SendCartLetter payment.CartID with
    | some _ =>
      { resp := .StatusInternalServerError, db := s1
        calls := log1 ++ [.SendCartLetter payment.CartID false] }
    | none =>
      let log2 := log1 ++ [.SendCartLetter payment.CartID true]
      match E.SendPaymentHook hook with
      | some _ =>
        { resp := .StatusInternalServerError, db := s1
          calls := log2 ++ [.SendPaymentHook hook false] }
      | none =>
        { resp := .Render "success" "layouts/main", db := s1
          calls := log2 ++ [.SendPaymentHook hook true] }
  else
    match E.SendPaymentHook hook with
    | some _ =>
      { resp := .StatusInternalServerError, db := s1
        calls := log1 ++ [.SendPaymentHook hook false] }
    | none =>
      { resp := .Render "success" "layouts/main", db := s1
        calls := log1 ++ [.SendPaymentHook hook true] }

/-- Lines 297-338 of `PaymentSuccess`: the provider switch.  It either returns
from the handler (`.error`) or goes on with the payment as resolved so far
(`.ok`, with the calls made so far).  `Checkout` is taken to leave the cart ID
and payment system of the payment it is given as they are; its answer carries
the merchant ID and the status.  The Spectrocoin case only prints the payment. -/
def PaymentSuccess.resolve {σ : Type} (E : Env) (D : DB σ) (s : σ) (c : Ctx)
    (payment : litepay.Payment) (log0 : List Call) :
    Except (Outcome σ) (litepay.Payment × List Call) :=
  if payment.PaymentSystem = litepay.STRIPE then
    let sessionStripe := c.Query "session"
    match D.GetSettingStripe s with
    | .error _ =>
      .error { resp := .StatusInternalServerError, db := s
               calls := log0 ++ [.GetSettingByGroup litepay.STRIPE false] }
    | .ok setting =>
    let log1 := log0 ++ [.GetSettingByGroup litepay.STRIPE true]
    if !setting.Active then
      .error { resp := .StatusNotFound, db := s, calls := log1 }
    else
      let session := (litepay.New "" "" "").Stripe setting.SecretKey
      match E.Checkout session payment sessionStripe with
      | .error _ =>
        .error { resp := .StatusInternalServerError, db := s
                 calls := log1 ++ [.Checkout session payment sessionStripe none] }
      | .ok response =>
        .ok ({ payment with MerchantID := response.MerchantID, Status := response.Status },
          log1 ++ [.Checkout session payment sessionStripe (some response)])
  else if payment.PaymentSystem = litepay.PAYPAL then
    let tokenPaypal := c.Query "token"
    match D.GetSettingPaypal s with
    | .error _ =>
      .error { resp := .StatusInternalServerError, db := s
               calls := log0 ++ [.GetSettingByGroup litepay.PAYPAL false] }
    | .ok setting =>
    let log1 := log0 ++ [.GetSettingByGroup litepay.PAYPAL true]
    if !setting.Active then
      .error { resp := .StatusNotFound, db := s, calls := log1 }
    else
      let session := (litepay.New "" "" "").Paypal setting.ClientID setting.SecretKey
      match E.Checkout session payment tokenPaypal with
      | .error _ =>
        .error { resp := .StatusInternalServerError, db := s
                 calls := log1 ++ [.Checkout session payment tokenPaypal none] }
      | .ok response =>
        .ok ({ payment with MerchantID := response.MerchantID, Status := response.Status },
          log1 ++ [.Checkout session payment tokenPaypal (some response)])
  else
    .ok (payment, log0)

/-- Handler `PaymentSuccess`, `[get] /cart/payment/success`. -/
def PaymentSuccess {σ : Type} (E : Env) (D : DB σ) (s : σ) (c : Ctx) : Outcome σ :=
  if c.Query "cart_id" = "" then
    { resp := .StatusBadRequest none, db := s, calls := [] }
  else
  let payment : litepay.Payment :=
    { CartID := c.Query "cart_id", PaymentSystem := c.Query "payment_system" }
  match E.Validate payment with
  | some _ => { resp := .Redirect "/", db := s, calls := [] }
  | none =>
  match D.Cart s (c.Query "cart_id") with
  | .error _ =>
    { resp := .StatusInternalServerError, db := s, calls := [.Cart (c.Query "cart_id") false] }
  | .ok cartInfo =>
  let log0 : List Call := [.Cart (c.Query "cart_id") true]
  if cartInfo.PaymentStatus = "paid" then
    { resp := .Render "success" "layouts/main", db := s, calls := log0 }
  else
  match PaymentSuccess.resolve E D s c payment log0 with
  | .error returned => returned
  | .ok (resolved, log1) => PaymentSuccess.finish E D s resolved log1

/-- Handler `PaymentCancel`, `[get] /cart/payment/cancel`. -/
def PaymentCancel {σ : Type} (E : Env) (D : DB σ) (s : σ) (c : Ctx) : Outcome σ :=
  let payment : litepay.Payment :=
    { CartID := c.Query "cart_id", PaymentSystem := c.Query "payment_system" }
  let row : models.Cart :=
    { ID := payment.CartID
      PaymentStatus := litepay.CANCELED
      PaymentSystem := payment.PaymentSystem }
  match D.UpdateCart s row with
  | .error _ => { resp := .StatusInternalServerError, db := s, calls := [.UpdateCart row false] }
  | .ok s1 =>
  let hook : webhook.Payment :=
    { Event := webhook.PAYMENT_CANCEL
      TimeStamp := E.Now
      Data :=
        { PaymentSystem := payment.PaymentSystem
          PaymentStatus := litepay.CANCELED
          CartID := payment.CartID } }
  match E.SendPaymentHook hook with
  | some _ =>
    { resp := .StatusInternalServerError, db := s1
      calls := [.UpdateCart row true, .SendPaymentHook hook false] }
  | none =>
    { resp := .Render "cancel" "layouts/main", db := s1
      calls := [.UpdateCart row true, .SendPaymentHook hook true] }

/-- The catalogue-priced sum of a cart: over the products the catalogue lookup
returned, unit price times the quantity of that item. -/
def catalogueSum (products : List models.Product) (cartProducts : List models.CartProduct) : Int :=
  (products.map (fun product => product.Amount * quantityOf cartProducts product.ID)).sum

/-- Terminal payment statuses: PAID, CANCELED, FAILED. -/
def isTerminal (status : litepay.Status) : Bool :=
  status = litepay.PAID || status = litepay.CANCELED || status = litepay.FAILED

/-- A store state: the settings and catalogue tables and the cart rows. -/
structure Store where
  domain : String := ""
  currency : String := ""
  products : List models.Product := []
  stripe : models.Stripe := {}
  paypal : models.Paypal := {}
  spectrocoin : models.Spectrocoin := {}
  carts : List models.Cart := []
  deriving DecidableEq

/-- Modelled from the spec: the cart store of package `queries` (section 4.2).
`Create` fails when the ID exists, `Get` fails when the ID is absent, and
`UpdateStatus` is the update of provider reference, status and provider of the
row with that ID, which never takes a terminal status back to NEW. -/
def Store.UpdateStatus (s : Store) (cart : models.Cart) : Store :=
  { s with
    carts := s.carts.map (fun row =>
      if row.ID = cart.ID then
        if isTerminal row.PaymentStatus && cart.PaymentStatus = litepay.NEW then row
        else
          { row with
            PaymentID := cart.PaymentID
            PaymentStatus := cart.PaymentStatus
            PaymentSystem := cart.PaymentSystem }
      else row) }

/-- Modelled from the spec: the database handle of package `queries` over
`Store`; settings and catalogue lookups answer from the tables of the state
(the lookup returns the catalogue products named by a cart line, all of them
for an empty cart), the cart operations follow section 4.2. -/
def storeDB : DB Store where
  GetSettingByKey := fun s => .ok (s.domain, s.currency)
  ListProducts := fun s lines =>
    .ok (if lines = [] then s.products
      else s.products.filter (fun product => lines.any (fun line => line.ProductID = product.ID)))
  GetSettingStripe := fun s => .ok s.stripe
  GetSettingPaypal := fun s => .ok s.paypal
  GetSettingSpectrocoin := fun s => .ok s.spectrocoin
  Cart := fun s id =>
    match s.carts.find? (fun row => row.ID = id) with
    | some row => .ok row
    | none => .error "cart not found"
  AddCart := fun s cart =>
    if s.carts.any (fun row => row.ID = cart.ID) then .error "duplicate cart id"
    else .ok { s with carts := s.carts ++ [cart] }
  UpdateCart := fun s cart => .ok (s.UpdateStatus cart)

/-- The same handle over a database that refuses every write. -/
def readOnlyDB : DB Store :=
  { storeDB with
    AddCart := fun _ _ => .error "database is read-only"
    UpdateCart := fun _ _ => .error "database is read-only" }

/-- A world in which every collaborator answers: the provider opens a session
and reports PAID on checkout, mail and webhook are delivered, and the status
table maps Spectrocoin code "3" to PAID. -/
def okEnv : Env where
  RandomString := "cart-1"
  Now := 1700000000
  Pay := fun session cart => .ok ("https://pay.example/" ++ session.system ++ "/" ++ cart.ID)
  Checkout := fun _ payment _ => .ok { payment with MerchantID := "merchant-1", Status := litepay.PAID }
  Validate := fun _ => none
  StatusPayment := fun system status =>
    if system = litepay.SPECTROCOIN && status = "3" then litepay.PAID else ""
  SendPrepaymentLetter := fun _ _ _ _ => none
  SendCartLetter := fun _ => none
  SendPaymentHook := fun _ => none

/-- A world whose payment providers are unreachable. -/
def providerDownEnv : Env :=
  { okEnv with
    Pay := fun _ _ => .error "provider unavailable"
    Checkout := fun _ _ _ => .error "provider unavailable" }

/-- The shop of the scenario: products X (500) and Y (1200), Stripe enabled. -/
def shop : Store :=
  { domain := "shop.example"
    currency := "USD"
    products := [{ ID := "X", Name := "X", Amount := 500 }, { ID := "Y", Name := "Y", Amount := 1200 }]
    stripe := { Active := true, SecretKey := "sk" } }

/-- A request context with the given query parameters and no parsable body. -/
def queryCtx (cartID paymentSystem : String) : Ctx where
  Query := fun key =>
    if key = "cart_id" then cartID else if key = "payment_system" then paymentSystem else ""
  BodyCartPayment := .error "unexpected end of JSON input"
  BodyCallbackSpectrocoin := .error "unexpected end of JSON input"

/-- The initiation request of the scenario: 2 of X and 1 of Y, paid with Stripe. -/
def initiateCtx : Ctx :=
  { queryCtx "" "" with
    BodyCartPayment := .ok
      { Email := "buyer@example.com"
        Provider := litepay.STRIPE
        Products := [{ ProductID := "X", Quantity := 2 }, { ProductID := "Y", Quantity := 1 }] } }

/-- The row the scenario stores: total 2200 in USD, status NEW. -/
def initiateRow : models.Cart :=
  { ID := "cart-1"
    Email := "buyer@example.com"
    Cart := [{ ProductID := "X", Quantity := 2 }, { ProductID := "Y", Quantity := 1 }]
    AmountTotal := 2200
    Currency := "USD"
    PaymentStatus := litepay.NEW
    PaymentSystem := litepay.STRIPE }

/-- The cart of the scenario as stored for a payment system, with a provider
reference and a status. -/
def storedCart (system : litepay.PaymentSystem) (paymentID : String) (status : litepay.Status) :
    models.Cart :=
  { initiateRow with PaymentSystem := system, PaymentID := paymentID, PaymentStatus := status }

/-- The shop holding one cart. -/
def shopWith (row : models.Cart) : Store := { shop with carts := [row] }

/-- A Spectrocoin callback for the cart of the scenario whose status code 51
becomes the key "3" of the status table. -/
def callbackCtx : Ctx :=
  { queryCtx "cart-1" litepay.SPECTROCOIN with
    BodyCallbackSpectrocoin := .ok
      { Status := 51, MerchantApiID := "merchant-1", ReceiveAmount := "22.00"
        ReceiveCurrency := "USD" } }

/-- The settings say that the named provider is one of Stripe, PayPal and
Spectrocoin and is not active. -/
def providerInactive {σ : Type} (D : DB σ) (s : σ) (provider : litepay.PaymentSystem) : Prop :=
  (provider = litepay.STRIPE ∧ ∃ setting, D.GetSettingStripe s = .ok setting ∧ setting.Active = false) ∨
  (provider = litepay.PAYPAL ∧ ∃ setting, D.GetSettingPaypal s = .ok setting ∧ setting.Active = false) ∨
  (provider = litepay.SPECTROCOIN ∧
    ∃ setting, D.GetSettingSpectrocoin s = .ok setting ∧ setting.Active = false)

/-- The shop with Stripe switched off in the settings. -/
def stripeOffShop : Store := { shop with stripe := { Active := false } }

/-- The call returned an error to the handler. -/
def Call.failed : Call → Bool
  | .GetSettingByKey ok => !ok
  | .ListProducts _ ok => !ok
  | .GetSettingByGroup _ ok => !ok
  | .Pay _ _ ok => !ok
  | .Checkout _ _ _ result => result.isNone
  | .Cart _ ok => !ok
  | .AddCart _ ok => !ok
  | .UpdateCart _ ok => !ok
  | .SendPrepaymentLetter _ _ _ _ ok => !ok
  | .SendCartLetter _ ok => !ok
  | .SendPaymentHook _ ok => !ok

/-- Notifications: emails and webhooks. -/
def Call.isNotification (x : Call) : Bool := x.isEmail || x.isHook

/-- A world whose mailer refuses every letter. -/
def mailDownEnv : Env :=
  { okEnv with
    SendPrepaymentLetter := fun _ _ _ _ => some "smtp: connection refused"
    SendCartLetter := fun _ => some "smtp: connection refused" }

/-- A world whose webhook sink refuses every payload. -/
def hookDownEnv : Env :=
  { okEnv with SendPaymentHook := fun _ => some "webhook: 503 service unavailable" }

/-- The carts handed to `session.Pay`, in order. -/
def paidCarts : List Call → List litepay.Cart
  | [] => []
  | .Pay _ cart _ :: rest => cart :: paidCarts rest
  | _ :: rest => paidCarts rest

/-- An initiation request for product X with the submitted quantity -1. -/
def negativeCtx : Ctx :=
  { queryCtx "" "" with
    BodyCartPayment := .ok
      { Email := "buyer@example.com"
        Provider := litepay.STRIPE
        Products := [{ ProductID := "X", Quantity := -1 }] } }

/-- Unicode scalar values: the code points a one-code-point string can hold. -/
def isCodePoint (n : Int) : Prop := (0 ≤ n ∧ n < 55296) ∨ (57344 ≤ n ∧ n ≤ 1114111)

/-- A world whose status mapping answers with the key it is handed, so that the
key shows up as the status. -/
def keyEnv : Env := { okEnv with StatusPayment := fun _ key => key }

/-- A Spectrocoin callback for the cart of the scenario with status code 3. -/
def codeThreeCtx : Ctx :=
  { queryCtx "cart-1" litepay.SPECTROCOIN with
    BodyCallbackSpectrocoin := .ok
      { Status := 3, MerchantApiID := "merchant-1", ReceiveAmount := "22.00"
        ReceiveCurrency := "USD" } }

/-- The initiation request of the scenario with no provider named. -/
def noProviderCtx : Ctx :=
  { queryCtx "" "" with
    BodyCartPayment := .ok
      { Email := "buyer@example.com"
        Provider := ""
        Products := [{ ProductID := "X", Quantity := 2 }, { ProductID := "Y", Quantity := 1 }] } }

/-! ## Go integer arithmetic -/

theorem wrapInt_of_inInt (x : Int) (h : inInt x) : wrapInt x = x := by
  unfold inInt at h
  unfold wrapInt
  omega

theorem wrapInt_add_wrapInt (a b : Int) : wrapInt (a + wrapInt b) = wrapInt (a + b) := by
  unfold wrapInt
  omega

theorem wrapInt_wrapInt_add (a b : Int) : wrapInt (wrapInt a + b) = wrapInt (a + b) := by
  unfold wrapInt
  omega

theorem foldl_amount (items : List litepay.Item) (acc : Int) :
    items.foldl (fun total s => wrapInt (total + wrapInt (s.PriceData.UnitAmount * s.Quantity)))
      (wrapInt acc)
      = wrapInt (acc + (items.map (fun s => s.PriceData.UnitAmount * s.Quantity)).sum) := by
  induction items generalizing acc with
  | nil => simp
  | cons item rest ih =>
    simp only [List.foldl_cons, List.map_cons, List.sum_cons]
    rw [wrapInt_add_wrapInt, wrapInt_wrapInt_add, ih, add_assoc]

theorem amountTotal_eq (items : List litepay.Item) :
    amountTotal items = wrapInt (items.map (fun s => s.PriceData.UnitAmount * s.Quantity)).sum := by
  have h := foldl_amount items 0
  have h0 : wrapInt 0 = 0 := by decide
  rw [h0, zero_add] at h
  exact h

theorem amountTotal_buildItem (domain : String) (cartProducts : List models.CartProduct)
    (products : List models.Product) :
    amountTotal (products.map (buildItem domain cartProducts))
      = wrapInt (catalogueSum products cartProducts) := by
  rw [amountTotal_eq, List.map_map]
  rfl

/-! ## The call log -/

theorem hooksOf_append (a b : List Call) : hooksOf (a ++ b) = hooksOf a ++ hooksOf b := by
  induction a with
  | nil => rfl
  | cons x rest ih => cases x <;> simp [hooksOf, ih]

theorem addedCarts_append (a b : List Call) :
    addedCarts (a ++ b) = addedCarts a ++ addedCarts b := by
  induction a with
  | nil => rfl
  | cons x rest ih => cases x <;> simp [addedCarts, ih]

theorem updatedCarts_append (a b : List Call) :
    updatedCarts (a ++ b) = updatedCarts a ++ updatedCarts b := by
  induction a with
  | nil => rfl
  | cons x rest ih => cases x <;> simp [updatedCarts, ih]

theorem hooksOf_quiet (l : List Call) (h : ∀ x ∈ l, quiet x) : hooksOf l = [] := by
  induction l with
  | nil => rfl
  | cons x rest ih =>
    have hx := (h x (List.mem_cons_self _ _)).2.2
    have hrest := ih (fun y hy => h y (List.mem_cons_of_mem _ hy))
    cases x <;> simp_all [hooksOf, Call.isHook]

theorem addedCarts_quiet (l : List Call) (h : ∀ x ∈ l, quiet x) : addedCarts l = [] := by
  induction l with
  | nil => rfl
  | cons x rest ih =>
    have hx := (h x (List.mem_cons_self _ _)).1
    have hrest := ih (fun y hy => h y (List.mem_cons_of_mem _ hy))
    cases x <;> simp_all [addedCarts, Call.isWrite]

theorem updatedCarts_quiet (l : List Call) (h : ∀ x ∈ l, quiet x) : updatedCarts l = [] := by
  induction l with
  | nil => rfl
  | cons x rest ih =>
    have hx := (h x (List.mem_cons_self _ _)).1
    have hrest := ih (fun y hy => h y (List.mem_cons_of_mem _ hy))
    cases x <;> simp_all [updatedCarts, Call.isWrite]

/-! ## Initiation -/

/-- The provider switch of `Payment` makes no store write and sends no email
and no webhook, whether it returns early or goes on. -/
theorem session_quiet {σ : Type} (E : Env) (D : DB σ) (s : σ) (pay : litepay.Pay)
    (cart : litepay.Cart) (paymentURL : String) (paymentSystem : litepay.PaymentSystem)
    (log0 : List Call) (h0 : ∀ x ∈ log0, quiet x) :
    (∀ returned, Payment.session E D s pay cart paymentURL paymentSystem log0 = .error returned →
      returned.db = s ∧ ∀ x ∈ returned.calls, quiet x) ∧
    (∀ url log1, Payment.session E D s pay cart paymentURL paymentSystem log0 = .ok (url, log1) →
      ∀ x ∈ log1, quiet x) := by
  simp only [Payment.session]
  repeat' split
  all_goals
    refine ⟨fun returned h => ?_, fun url log1 h => ?_⟩
    all_goals first
      | (simp at h; done)
      | (simp only [Except.error.injEq] at h
         subst h
         refine ⟨rfl, fun x hx => ?_⟩
         simp only [List.mem_append, List.mem_singleton] at hx
         rcases hx with hx | hx
         · first
             | exact h0 x hx
             | (rcases hx with hx | hx
                · exact h0 x hx
                · subst hx; simp [quiet, Call.isWrite, Call.isEmail, Call.isHook])
         · subst hx; simp [quiet, Call.isWrite, Call.isEmail, Call.isHook])
      | (simp only [Except.ok.injEq, Prod.mk.injEq] at h
         obtain ⟨_, h2⟩ := h
         subst h2
         intro x hx
         try simp only [List.mem_append, List.mem_singleton] at hx
         first
           | exact h0 x hx
           | (rcases hx with (hx | hx) | hx
              · exact h0 x hx
              · subst hx; simp [quiet, Call.isWrite, Call.isEmail, Call.isHook]
              · subst hx; simp [quiet, Call.isWrite, Call.isEmail, Call.isHook]))

theorem finish_addCart {σ : Type} (E : Env) (D : DB σ) (s : σ) (payment : models.CartPayment)
    (cart : litepay.Cart) (url : String) (pre : List Call) (row : models.Cart) (ok : Bool)
    (h : Call.AddCart row ok ∈ (Payment.finish E D s payment cart url pre).calls) :
    Call.AddCart row ok ∈ pre ∨ row.AmountTotal = amountTotal cart.Items := by
  unfold Payment.finish at h
  simp only at h
  split at h <;> [skip; split at h] <;> simp at h <;>
    (rcases h with h | h
     · exact Or.inl h
     · exact Or.inr (by rw [h.1]; rfl))

/-- C1. Every row `Payment` hands to `AddCart` carries as `AmountTotal` the sum,
over the products the catalogue lookup returned, of the catalogue price
`product.Amount` times the quantity of that item, computed in Go `int`
arithmetic; it is that sum exactly whenever the sum fits a Go `int`.  Nothing
but the catalogue price and the quantity enters. -/
theorem Payment_amount_total {σ : Type} (E : Env) (D : DB σ) (s : σ) (c : Ctx)
    (row : models.Cart) (ok : Bool)
    (h : Call.AddCart row ok ∈ (Payment E D s c).calls) :
    ∃ payment products,
      c.BodyCartPayment = .ok payment ∧
      D.ListProducts s payment.Products = .ok products ∧
      row.AmountTotal = wrapInt (catalogueSum products payment.Products) ∧
      (inInt (catalogueSum products payment.Products) →
        row.AmountTotal = catalogueSum products payment.Products) := by
  unfold Payment at h
  split at h
  · simp at h
  rename_i payment hbody
  split at h
  · simp at h
  rename_i domain currency hkey
  split at h
  · simp at h
  rename_i products hprod
  have key : row.AmountTotal = amountTotal (products.map (buildItem domain payment.Products)) := by
    simp only at h
    have hq := session_quiet E D s
      (litepay.New ("https://" ++ domain ++ "/cart/payment/callback")
        ("https://" ++ domain ++ "/cart/payment/success")
        ("https://" ++ domain ++ "/cart/payment/cancel"))
      { ID := E.RandomString, Currency := currency
        Items := products.map (buildItem domain payment.Products) }
      ("https://" ++ domain ++ "/cart") payment.Provider
      [.GetSettingByKey true, .ListProducts payment.Products true] (by simp [quiet, Call.isWrite, Call.isEmail, Call.isHook])
    split at h
    · rename_i returned hret
      exact absurd ((hq.1 _ hret).2 _ h).1 (by simp [Call.isWrite])
    · rename_i url log1 hok
      rcases finish_addCart _ _ _ _ _ _ _ _ _ h with h1 | h1
      · exact absurd (hq.2 _ _ hok _ h1).1 (by simp [Call.isWrite])
      · exact h1
  rw [amountTotal_buildItem] at key
  exact ⟨payment, products, hbody, hprod, key, fun hin => by rw [key, wrapInt_of_inInt _ hin]⟩

/-- C1, the scenario of the spec: catalogue prices 500 and 1200 with quantities
2 and 1 are stored as 2200. -/
theorem Payment_amount_total_witness :
    Call.AddCart initiateRow true ∈ (Payment okEnv storeDB shop initiateCtx).calls ∧
    initiateRow.AmountTotal = 2200 ∧
    ∃ payment products,
      initiateCtx.BodyCartPayment = .ok payment ∧
      storeDB.ListProducts shop payment.Products = .ok products ∧
      initiateRow.AmountTotal = wrapInt (catalogueSum products payment.Products) ∧
      (inInt (catalogueSum products payment.Products) →
        initiateRow.AmountTotal = catalogueSum products payment.Products) :=
  ⟨by decide, rfl, Payment_amount_total okEnv storeDB shop initiateCtx initiateRow true (by decide)⟩

theorem finish_delivered {σ : Type} (E : Env) (D : DB σ) (s : σ) (payment : models.CartPayment)
    (cart : litepay.Cart) (url : String) (pre : List Call)
    (hmail : ∀ email total currency paymentURL,
      E.SendPrepaymentLetter email total currency paymentURL = none)
    (hhook : ∀ hook, E.SendPaymentHook hook = none) :
    ∃ ok,
      (Payment.finish E D s payment cart url pre).calls =
        pre ++ [Call.AddCart (Payment.row payment cart) ok,
          Call.SendPrepaymentLetter payment.Email (amountTotal cart.Items) cart.Currency url true,
          Call.SendPaymentHook (Payment.hook E payment cart) true] ∧
      (Payment.finish E D s payment cart url pre).resp = .Json 200 "Payment url" url ∧
      (∀ s1, D.AddCart s (Payment.row payment cart) = .ok s1 →
        (Payment.finish E D s payment cart url pre).db = s1) := by
  unfold Payment.finish
  simp only [hmail, hhook]
  cases hadd : D.AddCart s (Payment.row payment cart) with
  | error e => exact ⟨false, by simp, trivial, by simp⟩
  | ok s1 => exact ⟨true, by simp, trivial, by simp⟩


/-- An early return of the provider switch of `Payment` has opened no session. -/
theorem session_error_no_session {σ : Type} (E : Env) (D : DB σ) (s : σ) (pay : litepay.Pay)
    (cart : litepay.Cart) (paymentURL : String) (paymentSystem : litepay.PaymentSystem)
    (log0 : List Call) (h0 : ∀ x ∈ log0, x.isProvider = false) (returned : Outcome σ)
    (h : Payment.session E D s pay cart paymentURL paymentSystem log0 = .error returned)
    (session : litepay.Session) (cart1 : litepay.Cart) :
    Call.Pay session cart1 true ∉ returned.calls := by
  intro hmem
  have hlog : Call.Pay session cart1 true ∉ log0 := fun hin => by
    have := h0 _ hin
    simp [Call.isProvider] at this
  simp only [Payment.session] at h
  repeat' split at h
  all_goals first
    | (simp at h; done)
    | (simp only [Except.error.injEq] at h
       subst h
       simp [hlog] at hmem)

/-- C2. When `Payment` opened a provider session (so the request names Stripe,
PayPal or Spectrocoin and the settings say the provider is active) and the
mailer and the webhook sink deliver, `Payment` hands exactly one row to
`AddCart`, with status NEW, and sends exactly one webhook: event
`payment_initiation`, status NEW, the cart ID of that row and `total_amount`
equal to the row's `AmountTotal`.  The response is 200, and the store is the
one `AddCart` produced. -/
theorem Payment_initiated {σ : Type} (E : Env) (D : DB σ) (s : σ) (c : Ctx)
    (session : litepay.Session) (cart : litepay.Cart)
    (hsession : Call.Pay session cart true ∈ (Payment E D s c).calls)
    (hmail : ∀ email total currency paymentURL,
      E.SendPrepaymentLetter email total currency paymentURL = none)
    (hhook : ∀ hook, E.SendPaymentHook hook = none) :
    ∃ row hook,
      addedCarts (Payment E D s c).calls = [row] ∧
      row.PaymentStatus = litepay.NEW ∧
      hooksOf (Payment E D s c).calls = [hook] ∧
      Call.SendPaymentHook hook true ∈ (Payment E D s c).calls ∧
      hook.Event = webhook.PAYMENT_INITIATION ∧
      hook.Data.PaymentStatus = litepay.NEW ∧
      hook.Data.CartID = row.ID ∧
      hook.Data.TotalAmount = row.AmountTotal ∧
      (Payment E D s c).resp.code = 200 ∧
      (∀ s1, D.AddCart s row = .ok s1 → (Payment E D s c).db = s1) := by
  revert hsession
  simp only [Payment]
  split
  · intro h; simp at h
  split
  · intro h; simp at h
  split
  · intro h; simp at h
  rename_i payment _ _ domain currency _ _ products _
  have hq := session_quiet E D s
    (litepay.New ("https://" ++ domain ++ "/cart/payment/callback")
      ("https://" ++ domain ++ "/cart/payment/success")
      ("https://" ++ domain ++ "/cart/payment/cancel"))
    { ID := E.RandomString, Currency := currency
      Items := products.map (buildItem domain payment.Products) }
    ("https://" ++ domain ++ "/cart") payment.Provider
    [.GetSettingByKey true, .ListProducts payment.Products true]
    (by simp [quiet, Call.isWrite, Call.isEmail, Call.isHook])
  split
  · rename_i returned hret
    intro h
    exact absurd h (session_error_no_session _ _ _ _ _ _ _ _ (by simp [Call.isProvider]) _ hret _ _)
  · rename_i url log1 hok
    intro _
    have hlog := hq.2 _ _ hok
    obtain ⟨ok, hcalls, hresp, hdb⟩ := finish_delivered E D s payment
      { ID := E.RandomString, Currency := currency
        Items := products.map (buildItem domain payment.Products) } url log1 hmail hhook
    refine ⟨Payment.row payment
        { ID := E.RandomString, Currency := currency
          Items := products.map (buildItem domain payment.Products) },
      Payment.hook E payment
        { ID := E.RandomString, Currency := currency
          Items := products.map (buildItem domain payment.Products) },
      ?_, rfl, ?_, ?_, rfl, rfl, rfl, rfl, ?_, hdb⟩
    · rw [hcalls, addedCarts_append, addedCarts_quiet _ hlog]
      rfl
    · rw [hcalls, hooksOf_append, hooksOf_quiet _ hlog]
      rfl
    · rw [hcalls]
      simp
    · rw [hresp]
      rfl

/-- C2, the scenario of the spec: the Stripe initiation for 2 of X and 1 of Y
stores one NEW cart of 2200 and sends one initiation webhook with total 2200. -/
theorem Payment_initiated_witness :
    (Payment okEnv storeDB shop initiateCtx).db.carts = [initiateRow] ∧
    (hooksOf (Payment okEnv storeDB shop initiateCtx).calls).map
        (fun hook => (hook.Event, hook.Data.PaymentStatus, hook.Data.CartID, hook.Data.TotalAmount))
      = [("payment_initiation", "new", "cart-1", 2200)] ∧
    ∃ row hook,
      addedCarts (Payment okEnv storeDB shop initiateCtx).calls = [row] ∧
      row.PaymentStatus = litepay.NEW ∧
      hooksOf (Payment okEnv storeDB shop initiateCtx).calls = [hook] ∧
      Call.SendPaymentHook hook true ∈ (Payment okEnv storeDB shop initiateCtx).calls ∧
      hook.Event = webhook.PAYMENT_INITIATION ∧
      hook.Data.PaymentStatus = litepay.NEW ∧
      hook.Data.CartID = row.ID ∧
      hook.Data.TotalAmount = row.AmountTotal ∧
      (Payment okEnv storeDB shop initiateCtx).resp.code = 200 ∧
      (∀ s1, storeDB.AddCart shop row = .ok s1 →
        (Payment okEnv storeDB shop initiateCtx).db = s1) :=
  ⟨by decide, by decide,
    Payment_initiated okEnv storeDB shop initiateCtx
      ((litepay.New "https://shop.example/cart/payment/callback"
        "https://shop.example/cart/payment/success"
        "https://shop.example/cart/payment/cancel").Stripe "sk")
      { ID := "cart-1", Currency := "USD"
        Items := shop.products.map (buildItem "shop.example"
          [{ ProductID := "X", Quantity := 2 }, { ProductID := "Y", Quantity := 1 }]) }
      (by decide) (fun _ _ _ _ => rfl) (fun _ => rfl)⟩

/-! ## Completion signals on a finished cart -/

/-- Handler `PaymentCancel` reads nothing: whatever the store holds, the one row
it hands to `UpdateCart` carries status CANCELED and an empty provider
reference. -/
theorem PaymentCancel_update {σ : Type} (E : Env) (D : DB σ) (s : σ) (c : Ctx) :
    updatedCarts (PaymentCancel E D s c).calls =
      [{ ID := c.Query "cart_id", PaymentStatus := litepay.CANCELED
         PaymentSystem := c.Query "payment_system" }] := by
  simp only [PaymentCancel]
  repeat' split
  all_goals rfl

/-- C3, failing input.  The cart is stored as PAID; a cancel redirect carrying
its ID makes `PaymentCancel` hand status CANCELED to `UpdateCart`, the store
then holds the cart as CANCELED, and a `payment_cancel` webhook goes out. -/
theorem PaymentCancel_overrides_paid :
    (shopWith (storedCart litepay.STRIPE "merchant-1" litepay.PAID)).carts.map
        (fun row => (row.ID, row.PaymentStatus)) = [("cart-1", "paid")] ∧
    (updatedCarts (PaymentCancel okEnv storeDB
        (shopWith (storedCart litepay.STRIPE "merchant-1" litepay.PAID))
        (queryCtx "cart-1" litepay.STRIPE)).calls).map (fun row => (row.ID, row.PaymentStatus))
      = [("cart-1", "canceled")] ∧
    (PaymentCancel okEnv storeDB
        (shopWith (storedCart litepay.STRIPE "merchant-1" litepay.PAID))
        (queryCtx "cart-1" litepay.STRIPE)).db.carts.map (fun row => (row.ID, row.PaymentStatus))
      = [("cart-1", "canceled")] ∧
    (hooksOf (PaymentCancel okEnv storeDB
        (shopWith (storedCart litepay.STRIPE "merchant-1" litepay.PAID))
        (queryCtx "cart-1" litepay.STRIPE)).calls).map
        (fun hook => (hook.Event, hook.Data.PaymentStatus))
      = [("payment_cancel", "canceled")] := by
  decide

/-- Handler `PaymentCallback` never acknowledges without having sent a webhook:
the acknowledgement is only reached after `UpdateCart` and `SendPaymentHook`. -/
theorem PaymentCallback_ack_sends_hook {σ : Type} (E : Env) (D : DB σ) (s : σ) (c : Ctx)
    (h : (PaymentCallback E D s c).resp = .SendString 200 "*ok*") :
    ∃ row hook, (PaymentCallback E D s c).calls.head? = some (Call.UpdateCart row true) ∧
      Call.SendPaymentHook hook true ∈ (PaymentCallback E D s c).calls := by
  revert h
  simp only [PaymentCallback, PaymentCallback.finish]
  repeat' split
  all_goals first
    | (intro h; simp at h; done)
    | (intro _; exact ⟨_, _, rfl, List.mem_append_right _ (List.mem_singleton.2 rfl)⟩)

/-- C4, failing input.  The cart is stored as PAID.  A callback naming Stripe
is acknowledged, yet the handler has handed an empty status and an empty
provider reference to `UpdateCart`, the store no longer holds the cart as
PAID, and a `payment_callback` webhook went out.  A Spectrocoin callback that
resolves to PAID is acknowledged after a second receipt email and a webhook. -/
theorem PaymentCallback_on_paid :
    (PaymentCallback okEnv storeDB
        (shopWith (storedCart litepay.STRIPE "merchant-1" litepay.PAID))
        (queryCtx "cart-1" litepay.STRIPE)).resp = .SendString 200 "*ok*" ∧
    (PaymentCallback okEnv storeDB
        (shopWith (storedCart litepay.STRIPE "merchant-1" litepay.PAID))
        (queryCtx "cart-1" litepay.STRIPE)).db.carts
      = [storedCart litepay.STRIPE "" ""] ∧
    (hooksOf (PaymentCallback okEnv storeDB
        (shopWith (storedCart litepay.STRIPE "merchant-1" litepay.PAID))
        (queryCtx "cart-1" litepay.STRIPE)).calls).map (fun hook => hook.Event)
      = ["payment_callback"] ∧
    (PaymentCallback okEnv storeDB
        (shopWith (storedCart litepay.SPECTROCOIN "merchant-1" litepay.PAID)) callbackCtx).resp
      = .SendString 200 "*ok*" ∧
    (PaymentCallback okEnv storeDB
        (shopWith (storedCart litepay.SPECTROCOIN "merchant-1" litepay.PAID)) callbackCtx).calls
      = [.UpdateCart
          { ID := "cart-1", PaymentID := "merchant-1", PaymentStatus := litepay.PAID
            PaymentSystem := litepay.SPECTROCOIN } true,
         .SendCartLetter "cart-1" true,
         .SendPaymentHook
          { Event := webhook.PAYMENT_CALLBACK, TimeStamp := 1700000000
            Data := { PaymentSystem := litepay.SPECTROCOIN, PaymentStatus := litepay.PAID
                      CartID := "cart-1" } } true] := by
  decide

/-- One run of `PaymentCallback` on a Spectrocoin callback that resolves to
PAID: when the store takes the update and mail and webhook deliver, the
handler sends a receipt email and a webhook, whatever status was stored. -/
theorem PaymentCallback_paid_notifies {σ : Type} (E : Env) (D : DB σ) (s s1 : σ) (c : Ctx)
    (response : litepay.CallbackSpectrocoin)
    (hsystem : c.Query "payment_system" = litepay.SPECTROCOIN)
    (hbody : c.BodyCallbackSpectrocoin = .ok response)
    (hpaid : E.StatusPayment litepay.SPECTROCOIN (runeString (toRune response.Status))
      = litepay.PAID)
    (hupdate : ∀ row, D.UpdateCart s row = .ok s1)
    (hmail : ∀ id, E.SendCartLetter id = none)
    (hhook : ∀ hook, E.SendPaymentHook hook = none) :
    ((PaymentCallback E D s c).calls.filter Call.isReceipt).length = 1 ∧
    ((PaymentCallback E D s c).calls.filter Call.isHook).length = 1 ∧
    (PaymentCallback E D s c).db = s1 := by
  simp [PaymentCallback, PaymentCallback.finish, hsystem, hbody, hpaid, hupdate, hmail, hhook,
    Call.isReceipt, Call.isHook]

/-- C5, failing input.  The cart is stored as NEW; the same Spectrocoin
callback, resolving to PAID, is handled twice in succession.  Both runs are
acknowledged, and together they send two receipt emails and two
`payment_callback` webhooks. -/
theorem PaymentCallback_twice :
    (shopWith (storedCart litepay.SPECTROCOIN "" litepay.NEW)).carts.map
        (fun row => row.PaymentStatus) = ["new"] ∧
    (PaymentCallback okEnv storeDB
        (shopWith (storedCart litepay.SPECTROCOIN "" litepay.NEW)) callbackCtx).db.carts.map
        (fun row => row.PaymentStatus) = ["paid"] ∧
    (((PaymentCallback okEnv storeDB
          (shopWith (storedCart litepay.SPECTROCOIN "" litepay.NEW)) callbackCtx).calls ++
        (PaymentCallback okEnv storeDB
          (PaymentCallback okEnv storeDB
            (shopWith (storedCart litepay.SPECTROCOIN "" litepay.NEW)) callbackCtx).db
          callbackCtx).calls).filter Call.isReceipt).length = 2 ∧
    (hooksOf ((PaymentCallback okEnv storeDB
          (shopWith (storedCart litepay.SPECTROCOIN "" litepay.NEW)) callbackCtx).calls ++
        (PaymentCallback okEnv storeDB
          (PaymentCallback okEnv storeDB
            (shopWith (storedCart litepay.SPECTROCOIN "" litepay.NEW)) callbackCtx).db
          callbackCtx).calls)).map (fun hook => (hook.Event, hook.Data.PaymentStatus))
      = [("payment_callback", "paid"), ("payment_callback", "paid")] := by
  decide

/-! ## The success redirect -/

/-- The provider switch of `PaymentSuccess`, entered after the cart was read.
An early return has written nothing and notified nobody, and is a 500 when a
`Checkout` failed.  When the switch goes on, no write and no notification has
happened, no `Checkout` has failed, the cart ID and payment system are those of
the request, and the status is the one the payment had before, unless a
`Checkout` for this payment answered, and then it is the answered status. -/
theorem resolve_spec {σ : Type} (E : Env) (D : DB σ) (s : σ) (c : Ctx)
    (payment : litepay.Payment) (id : String) :
    (∀ returned, PaymentSuccess.resolve E D s c payment [.Cart id true] = .error returned →
      returned.db = s ∧ (∀ x ∈ returned.calls, quiet x) ∧
      ((∃ session p token, Call.Checkout session p token none ∈ returned.calls) →
        returned.resp = .StatusInternalServerError)) ∧
    (∀ resolved log1,
      PaymentSuccess.resolve E D s c payment [.Cart id true] = .ok (resolved, log1) →
      (∀ x ∈ log1, quiet x) ∧
      (∀ session p token, Call.Checkout session p token none ∉ log1) ∧
      resolved.CartID = payment.CartID ∧
      resolved.PaymentSystem = payment.PaymentSystem ∧
      (resolved.Status = payment.Status ∨
        ∃ session token response,
          Call.Checkout session payment token (some response) ∈ log1 ∧
          E.Checkout session payment token = .ok response ∧
          resolved.Status = response.Status)) := by
  simp only [PaymentSuccess.resolve]
  repeat' split
  all_goals
    refine ⟨fun returned h => ?_, fun resolved log1 h => ?_⟩
    all_goals first
      | (simp at h; done)
      | (simp only [Except.error.injEq] at h
         subst h
         simp [quiet, Call.isWrite, Call.isEmail, Call.isHook])
      | (simp only [Except.ok.injEq, Prod.mk.injEq] at h
         obtain ⟨h1, h2⟩ := h
         subst h1 h2
         refine ⟨by simp [quiet, Call.isWrite, Call.isEmail, Call.isHook], by simp, rfl, rfl, ?_⟩
         first
           | exact Or.inl rfl
           | exact Or.inr ⟨_, _, _, List.mem_append_right _ (List.mem_singleton.2 rfl),
               by assumption, rfl⟩)

/-- Lines 340-376 of `PaymentSuccess` make one `UpdateCart`, of `statusRow`,
and send the receipt email only for status PAID. -/
theorem success_finish_spec {σ : Type} (E : Env) (D : DB σ) (s : σ) (payment : litepay.Payment)
    (pre : List Call) (hpre : ∀ x ∈ pre, quiet x) :
    (∀ row ok, Call.UpdateCart row ok ∈ (PaymentSuccess.finish E D s payment pre).calls →
      row = statusRow payment) ∧
    (∀ id ok, Call.SendCartLetter id ok ∈ (PaymentSuccess.finish E D s payment pre).calls →
      payment.Status = litepay.PAID) ∧
    (∀ session p token result,
      Call.Checkout session p token result ∈ (PaymentSuccess.finish E D s payment pre).calls →
      Call.Checkout session p token result ∈ pre) ∧
    (∀ row, Call.UpdateCart row false ∈ (PaymentSuccess.finish E D s payment pre).calls →
      (PaymentSuccess.finish E D s payment pre).resp = .StatusInternalServerError ∧
      (PaymentSuccess.finish E D s payment pre).db = s ∧
      ∀ x ∈ (PaymentSuccess.finish E D s payment pre).calls,
        x.isEmail = false ∧ x.isHook = false) := by
  have hw : ∀ row ok, Call.UpdateCart row ok ∉ pre := fun row ok hin => by
    have := (hpre _ hin).1
    simp [Call.isWrite] at this
  have hm : ∀ id ok, Call.SendCartLetter id ok ∉ pre := fun id ok hin => by
    have := (hpre _ hin).2.1
    simp [Call.isEmail] at this
  simp only [PaymentSuccess.finish]
  repeat' split
  all_goals
    refine ⟨fun row ok h => ?_, fun id ok h => ?_, fun session p token result h => ?_,
      fun row h => ?_⟩
    · simp [hw] at h
      exact h.1
    · first
        | assumption
        | (simp [hm] at h)
    · simpa using h
    · first
        | (simp [hw] at h; done)
        | (refine ⟨rfl, rfl, fun x hx => ?_⟩
           simp only [List.mem_append, List.mem_singleton] at hx
           rcases hx with hx | hx
           · exact (hpre x hx).2
           · subst hx; simp [Call.isEmail, Call.isHook])

/-- C6. Under every value of `payment_system`, `PaymentSuccess` hands status
PAID to `UpdateCart`, and sends the receipt email, only if a `Checkout` call
made for this request (its cart ID and payment system) answered with status
PAID.  The query parameters alone never lead to a PAID write. -/
theorem PaymentSuccess_paid_needs_checkout {σ : Type} (E : Env) (D : DB σ) (s : σ) (c : Ctx) :
    (∀ row ok, Call.UpdateCart row ok ∈ (PaymentSuccess E D s c).calls →
      row.PaymentStatus = litepay.PAID →
      ∃ session payment token response,
        Call.Checkout session payment token (some response) ∈ (PaymentSuccess E D s c).calls ∧
        E.Checkout session payment token = .ok response ∧
        response.Status = litepay.PAID ∧
        payment.CartID = c.Query "cart_id" ∧
        payment.PaymentSystem = c.Query "payment_system") ∧
    (∀ id ok, Call.SendCartLetter id ok ∈ (PaymentSuccess E D s c).calls →
      ∃ session payment token response,
        Call.Checkout session payment token (some response) ∈ (PaymentSuccess E D s c).calls ∧
        E.Checkout session payment token = .ok response ∧
        response.Status = litepay.PAID ∧
        payment.CartID = c.Query "cart_id" ∧
        payment.PaymentSystem = c.Query "payment_system") := by
  simp only [PaymentSuccess]
  split
  · simp
  split
  · simp
  split
  · simp
  split
  · simp
  have hr := resolve_spec E D s c
    { CartID := c.Query "cart_id", PaymentSystem := c.Query "payment_system" } (c.Query "cart_id")
  split
  · rename_i returned hret
    have hq := (hr.1 _ hret).2.1
    refine ⟨fun row ok h _ => ?_, fun id ok h => ?_⟩
    · have := (hq _ h).1
      simp [Call.isWrite] at this
    · have := (hq _ h).2.1
      simp [Call.isEmail] at this
  · rename_i resolved log1 hok
    obtain ⟨hq, _, _, _, hstatus⟩ := hr.2 _ _ hok
    obtain ⟨hupd, hmail, _, _⟩ := success_finish_spec E D s resolved log1 hq
    have key : resolved.Status = litepay.PAID →
        ∃ session payment token response,
          Call.Checkout session payment token (some response) ∈
            (PaymentSuccess.finish E D s resolved log1).calls ∧
          E.Checkout session payment token = .ok response ∧
          response.Status = litepay.PAID ∧
          payment.CartID = c.Query "cart_id" ∧
          payment.PaymentSystem = c.Query "payment_system" := by
      intro hpaid
      rcases hstatus with h0 | ⟨session, token, response, hin, hco, hst⟩
      · rw [h0] at hpaid
        have hempty : ("" : String) = litepay.PAID := hpaid
        exact absurd hempty (by decide)
      · refine ⟨session, _, token, response, ?_, hco, by rw [← hst, hpaid], rfl, rfl⟩
        simp only [PaymentSuccess.finish]
        repeat' split
        all_goals simp [hin]
    refine ⟨fun row ok h hpaid => key ?_, fun id ok h => key (hmail _ _ h)⟩
    rw [hupd _ _ h] at hpaid
    exact hpaid

/-- C6, an instance: a Stripe success redirect for a NEW cart whose `Checkout`
answers PAID writes PAID, and the `Checkout` call is in the log. -/
theorem PaymentSuccess_paid_needs_checkout_witness :
    Call.UpdateCart
        { ID := "cart-1", PaymentID := "merchant-1", PaymentStatus := litepay.PAID
          PaymentSystem := litepay.STRIPE } true
      ∈ (PaymentSuccess okEnv storeDB (shopWith (storedCart litepay.STRIPE "" litepay.NEW))
          (queryCtx "cart-1" litepay.STRIPE)).calls ∧
    ∃ session payment token response,
      Call.Checkout session payment token (some response)
        ∈ (PaymentSuccess okEnv storeDB (shopWith (storedCart litepay.STRIPE "" litepay.NEW))
            (queryCtx "cart-1" litepay.STRIPE)).calls ∧
      okEnv.Checkout session payment token = .ok response ∧
      response.Status = litepay.PAID ∧
      payment.CartID = (queryCtx "cart-1" litepay.STRIPE).Query "cart_id" ∧
      payment.PaymentSystem = (queryCtx "cart-1" litepay.STRIPE).Query "payment_system" :=
  ⟨by decide,
    (PaymentSuccess_paid_needs_checkout okEnv storeDB
      (shopWith (storedCart litepay.STRIPE "" litepay.NEW)) (queryCtx "cart-1" litepay.STRIPE)).1
      { ID := "cart-1", PaymentID := "merchant-1", PaymentStatus := litepay.PAID
        PaymentSystem := litepay.STRIPE } true (by decide) rfl⟩

/-- C7, failing input.  The shop holds no cart "ghost".  A success redirect
with `cart_id=ghost` passes the check for an empty ID and the validation, the
store lookup fails, and `PaymentSuccess` answers 500 (internal server error),
which is not a 4xx not-found response.  The failed lookup is its only call, so
nothing is updated and nobody is notified. -/
theorem unknown_cart_answered_500 :
    (queryCtx "ghost" litepay.STRIPE).Query "cart_id" ≠ "" ∧
    okEnv.Validate { CartID := "ghost", PaymentSystem := litepay.STRIPE } = none ∧
    storeDB.Cart shop "ghost" = .error "cart not found" ∧
    (PaymentSuccess okEnv storeDB shop (queryCtx "ghost" litepay.STRIPE)).resp
      = .StatusInternalServerError ∧
    ¬ (400 ≤ (PaymentSuccess okEnv storeDB shop (queryCtx "ghost" litepay.STRIPE)).resp.code ∧
       (PaymentSuccess okEnv storeDB shop (queryCtx "ghost" litepay.STRIPE)).resp.code < 500) ∧
    (PaymentSuccess okEnv storeDB shop (queryCtx "ghost" litepay.STRIPE)).calls
      = [.Cart "ghost" false] :=
  ⟨by decide, rfl, rfl, by decide, by decide, by decide⟩

/-- Lines 287-291 of `PaymentSuccess` for every store: a success redirect with a
non-empty cart ID that passes validation and whose store lookup fails, for
whatever reason, is answered with 500; the handler makes no store update, calls
no provider and sends no email and no webhook: the failed lookup is its only
call.  The handler does not tell a missing cart from any other lookup error. -/
theorem PaymentSuccess_unknown_cart {σ : Type} (E : Env) (D : DB σ) (s : σ) (c : Ctx) (e : Err)
    (hid : c.Query "cart_id" ≠ "")
    (hvalid : E.Validate
      { CartID := c.Query "cart_id", PaymentSystem := c.Query "payment_system" } = none)
    (hcart : D.Cart s (c.Query "cart_id") = .error e) :
    (PaymentSuccess E D s c).resp = .StatusInternalServerError ∧
    (PaymentSuccess E D s c).resp.code = 500 ∧
    (PaymentSuccess E D s c).db = s ∧
    (PaymentSuccess E D s c).calls = [.Cart (c.Query "cart_id") false] := by
  simp [PaymentSuccess, hid, hvalid, hcart, Response.code]

/-- An instance of the lookup failure: the cart ID "ghost" in a shop without carts. -/
theorem PaymentSuccess_unknown_cart_witness :
    (PaymentSuccess okEnv storeDB shop (queryCtx "ghost" litepay.STRIPE)).resp
      = .StatusInternalServerError ∧
    (PaymentSuccess okEnv storeDB shop (queryCtx "ghost" litepay.STRIPE)).resp.code = 500 ∧
    (PaymentSuccess okEnv storeDB shop (queryCtx "ghost" litepay.STRIPE)).db = shop ∧
    (PaymentSuccess okEnv storeDB shop (queryCtx "ghost" litepay.STRIPE)).calls
      = [.Cart ((queryCtx "ghost" litepay.STRIPE).Query "cart_id") false] :=
  PaymentSuccess_unknown_cart okEnv storeDB shop (queryCtx "ghost" litepay.STRIPE)
    "cart not found" (by decide) rfl rfl

/-! ## Providers that are switched off or fail -/

theorem session_inactive {σ : Type} (E : Env) (D : DB σ) (s : σ) (pay : litepay.Pay)
    (cart : litepay.Cart) (paymentURL : String) (paymentSystem : litepay.PaymentSystem)
    (log0 : List Call) (h : providerInactive D s paymentSystem) :
    Payment.session E D s pay cart paymentURL paymentSystem log0 =
      .error { resp := .Json 200 "Payment url" paymentURL, db := s
               calls := log0 ++ [.GetSettingByGroup paymentSystem true] } := by
  have h1 : litepay.PAYPAL ≠ litepay.STRIPE := by decide
  have h2 : litepay.SPECTROCOIN ≠ litepay.STRIPE := by decide
  have h3 : litepay.SPECTROCOIN ≠ litepay.PAYPAL := by decide
  rcases h with ⟨hp, setting, hs, ha⟩ | ⟨hp, setting, hs, ha⟩ | ⟨hp, setting, hs, ha⟩ <;>
    subst hp <;> simp [Payment.session, hs, ha, h1, h2, h3]

/-- C8. An initiation request that reaches the provider switch (the body
parses, the domain and currency settings and the catalogue lookup answer) and
names Stripe, PayPal or Spectrocoin while the settings say that provider is
not active is answered with status 200 and the payment URL
`https://<domain>/cart`.  No provider is called; the handler has only read
settings and catalogue, and the store is as before. -/
theorem Payment_inactive_provider {σ : Type} (E : Env) (D : DB σ) (s : σ) (c : Ctx)
    (payment : models.CartPayment) (domain currency : String) (products : List models.Product)
    (hbody : c.BodyCartPayment = .ok payment)
    (hkey : D.GetSettingByKey s = .ok (domain, currency))
    (hprod : D.ListProducts s payment.Products = .ok products)
    (hinactive : providerInactive D s payment.Provider) :
    (Payment E D s c).resp = .Json 200 "Payment url" ("https://" ++ domain ++ "/cart") ∧
    (Payment E D s c).resp.code = 200 ∧
    (∀ x ∈ (Payment E D s c).calls, x.isProvider = false ∧ quiet x) ∧
    (Payment E D s c).calls =
      [.GetSettingByKey true, .ListProducts payment.Products true,
       .GetSettingByGroup payment.Provider true] ∧
    (Payment E D s c).db = s := by
  simp only [Payment, hbody, hkey, hprod, session_inactive _ _ _ _ _ _ _ _ hinactive]
  simp [Response.code, Call.isProvider, quiet, Call.isWrite, Call.isEmail, Call.isHook]

/-- C8, an instance: the scenario's request when the Stripe settings are not
active is answered with 200 and `https://shop.example/cart`. -/
theorem Payment_inactive_provider_witness :
    (Payment providerDownEnv storeDB stripeOffShop initiateCtx).resp
      = .Json 200 "Payment url" ("https://" ++ "shop.example" ++ "/cart") ∧
    (Payment providerDownEnv storeDB stripeOffShop initiateCtx).resp.code = 200 ∧
    (∀ x ∈ (Payment providerDownEnv storeDB stripeOffShop
        initiateCtx).calls, x.isProvider = false ∧ quiet x) ∧
    (Payment providerDownEnv storeDB stripeOffShop
        initiateCtx).calls =
      [.GetSettingByKey true,
       .ListProducts [{ ProductID := "X", Quantity := 2 }, { ProductID := "Y", Quantity := 1 }] true,
       .GetSettingByGroup litepay.STRIPE true] ∧
    (Payment providerDownEnv storeDB stripeOffShop initiateCtx).db
      = stripeOffShop :=
  Payment_inactive_provider providerDownEnv storeDB stripeOffShop
    initiateCtx
    { Email := "buyer@example.com", Provider := litepay.STRIPE
      Products := [{ ProductID := "X", Quantity := 2 }, { ProductID := "Y", Quantity := 1 }] }
    "shop.example" "USD" shop.products rfl rfl rfl
    (Or.inl ⟨rfl, { Active := false }, rfl, rfl⟩)

theorem finish_pay {σ : Type} (E : Env) (D : DB σ) (s : σ) (payment : models.CartPayment)
    (cart : litepay.Cart) (url : String) (pre : List Call) (session : litepay.Session)
    (cart1 : litepay.Cart) (ok : Bool)
    (h : Call.Pay session cart1 ok ∈ (Payment.finish E D s payment cart url pre).calls) :
    Call.Pay session cart1 ok ∈ pre := by
  simp only [Payment.finish] at h
  split at h <;> [skip; split at h] <;> simpa using h

/-- In the provider switch of `Payment` a failed `session.Pay` is followed by
the return of a 500, and is never followed by going on. -/
theorem session_failed_pay {σ : Type} (E : Env) (D : DB σ) (s : σ) (pay : litepay.Pay)
    (cart : litepay.Cart) (paymentURL : String) (paymentSystem : litepay.PaymentSystem)
    (log0 : List Call) (h0 : ∀ x ∈ log0, x.isProvider = false) :
    (∀ returned, Payment.session E D s pay cart paymentURL paymentSystem log0 = .error returned →
      (∃ session cart1, Call.Pay session cart1 false ∈ returned.calls) →
      returned.resp = .StatusInternalServerError) ∧
    (∀ url log1, Payment.session E D s pay cart paymentURL paymentSystem log0 = .ok (url, log1) →
      ∀ session cart1, Call.Pay session cart1 false ∉ log1) := by
  have hlog : ∀ session cart1, Call.Pay session cart1 false ∉ log0 := fun session cart1 hin => by
    have := h0 _ hin
    simp [Call.isProvider] at this
  simp only [Payment.session]
  repeat' split
  all_goals
    refine ⟨fun returned h hmem => ?_, fun url log1 h session cart1 hmem => ?_⟩
    all_goals first
      | (simp at h; done)
      | (simp only [Except.error.injEq] at h
         subst h
         first
           | rfl
           | (obtain ⟨session, cart1, hmem⟩ := hmem
              simp [hlog] at hmem))
      | (simp only [Except.ok.injEq, Prod.mk.injEq] at h
         obtain ⟨_, h2⟩ := h
         subst h2
         simp [hlog] at hmem)

/-- C9. When the provider call returns an error (`session.Pay` in `Payment`,
`Checkout` in `PaymentSuccess`) the handler answers 500, leaves the store as it
was, and has made no `AddCart` or `UpdateCart` and sent no email and no
webhook. -/
theorem provider_error_aborts {σ : Type} (E : Env) (D : DB σ) (s : σ) (c : Ctx) :
    (∀ session cart, Call.Pay session cart false ∈ (Payment E D s c).calls →
      (Payment E D s c).resp = .StatusInternalServerError ∧
      (Payment E D s c).resp.code = 500 ∧
      (Payment E D s c).db = s ∧
      ∀ x ∈ (Payment E D s c).calls, quiet x) ∧
    (∀ session payment token,
      Call.Checkout session payment token none ∈ (PaymentSuccess E D s c).calls →
      (PaymentSuccess E D s c).resp = .StatusInternalServerError ∧
      (PaymentSuccess E D s c).resp.code = 500 ∧
      (PaymentSuccess E D s c).db = s ∧
      ∀ x ∈ (PaymentSuccess E D s c).calls, quiet x) := by
  constructor
  · intro session cart
    simp only [Payment]
    split
    · intro h; simp at h
    split
    · intro h; simp at h
    split
    · intro h; simp at h
    rename_i payment _ _ domain currency _ _ products _
    have hq := session_quiet E D s
      (litepay.New ("https://" ++ domain ++ "/cart/payment/callback")
        ("https://" ++ domain ++ "/cart/payment/success")
        ("https://" ++ domain ++ "/cart/payment/cancel"))
      { ID := E.RandomString, Currency := currency
        Items := products.map (buildItem domain payment.Products) }
      ("https://" ++ domain ++ "/cart") payment.Provider
      [.GetSettingByKey true, .ListProducts payment.Products true]
      (by simp [quiet, Call.isWrite, Call.isEmail, Call.isHook])
    have hf := session_failed_pay E D s
      (litepay.New ("https://" ++ domain ++ "/cart/payment/callback")
        ("https://" ++ domain ++ "/cart/payment/success")
        ("https://" ++ domain ++ "/cart/payment/cancel"))
      { ID := E.RandomString, Currency := currency
        Items := products.map (buildItem domain payment.Products) }
      ("https://" ++ domain ++ "/cart") payment.Provider
      [.GetSettingByKey true, .ListProducts payment.Products true]
      (by simp [Call.isProvider])
    split
    · rename_i returned hret
      intro h
      have hresp := hf.1 _ hret ⟨_, _, h⟩
      exact ⟨hresp, by rw [hresp]; rfl, (hq.1 _ hret).1, (hq.1 _ hret).2⟩
    · rename_i url log1 hok
      intro h
      exact absurd (finish_pay _ _ _ _ _ _ _ _ _ _ h) (hf.2 _ _ hok _ _)
  · intro session payment token
    simp only [PaymentSuccess]
    split
    · intro h; simp at h
    split
    · intro h; simp at h
    split
    · intro h; simp at h
    split
    · intro h; simp at h
    have hr := resolve_spec E D s c
      { CartID := c.Query "cart_id", PaymentSystem := c.Query "payment_system" }
      (c.Query "cart_id")
    split
    · rename_i returned hret
      intro h
      obtain ⟨hdb, hq, hresp⟩ := hr.1 _ hret
      have hresp1 := hresp ⟨_, _, _, h⟩
      exact ⟨hresp1, by rw [hresp1]; rfl, hdb, hq⟩
    · rename_i resolved log1 hok
      intro h
      obtain ⟨hq, hnone, _, _, _⟩ := hr.2 _ _ hok
      exact absurd ((success_finish_spec E D s resolved log1 hq).2.2.1 _ _ _ _ h) (hnone _ _ _)

/-- C9, an instance: with the providers unreachable, the Stripe initiation of
the scenario and a Stripe success redirect are both answered with 500. -/
theorem provider_error_aborts_witness :
    ((Payment providerDownEnv storeDB shop initiateCtx).resp = .StatusInternalServerError ∧
      (Payment providerDownEnv storeDB shop initiateCtx).resp.code = 500 ∧
      (Payment providerDownEnv storeDB shop initiateCtx).db = shop ∧
      ∀ x ∈ (Payment providerDownEnv storeDB shop initiateCtx).calls, quiet x) ∧
    ((PaymentSuccess providerDownEnv storeDB (shopWith (storedCart litepay.STRIPE "" litepay.NEW))
        (queryCtx "cart-1" litepay.STRIPE)).resp = .StatusInternalServerError ∧
      (PaymentSuccess providerDownEnv storeDB (shopWith (storedCart litepay.STRIPE "" litepay.NEW))
        (queryCtx "cart-1" litepay.STRIPE)).resp.code = 500 ∧
      (PaymentSuccess providerDownEnv storeDB (shopWith (storedCart litepay.STRIPE "" litepay.NEW))
        (queryCtx "cart-1" litepay.STRIPE)).db = shopWith (storedCart litepay.STRIPE "" litepay.NEW) ∧
      ∀ x ∈ (PaymentSuccess providerDownEnv storeDB
        (shopWith (storedCart litepay.STRIPE "" litepay.NEW))
        (queryCtx "cart-1" litepay.STRIPE)).calls, quiet x) :=
  ⟨(provider_error_aborts providerDownEnv storeDB shop initiateCtx).1
      ((litepay.New "https://shop.example/cart/payment/callback"
        "https://shop.example/cart/payment/success"
        "https://shop.example/cart/payment/cancel").Stripe "sk")
      { ID := "cart-1", Currency := "USD"
        Items := shop.products.map (buildItem "shop.example"
          [{ ProductID := "X", Quantity := 2 }, { ProductID := "Y", Quantity := 1 }]) }
      (by decide),
    (provider_error_aborts providerDownEnv storeDB
      (shopWith (storedCart litepay.STRIPE "" litepay.NEW)) (queryCtx "cart-1" litepay.STRIPE)).2
      ((litepay.New "" "" "").Stripe "sk")
      { CartID := "cart-1", PaymentSystem := litepay.STRIPE } "" (by decide)⟩

/-! ## Store writes that fail -/

/-- The three completion handlers look at the error of `UpdateCart`: when the
update fails they answer 500, leave the store as it was and send no email and
no webhook. -/
theorem update_error_aborts {σ : Type} (E : Env) (D : DB σ) (s : σ) (c : Ctx) (row : models.Cart) :
    (Call.UpdateCart row false ∈ (PaymentCallback E D s c).calls →
      (PaymentCallback E D s c).resp = .StatusInternalServerError ∧
      (PaymentCallback E D s c).db = s ∧
      ∀ x ∈ (PaymentCallback E D s c).calls, x.isEmail = false ∧ x.isHook = false) ∧
    (Call.UpdateCart row false ∈ (PaymentSuccess E D s c).calls →
      (PaymentSuccess E D s c).resp = .StatusInternalServerError ∧
      (PaymentSuccess E D s c).db = s ∧
      ∀ x ∈ (PaymentSuccess E D s c).calls, x.isEmail = false ∧ x.isHook = false) ∧
    (Call.UpdateCart row false ∈ (PaymentCancel E D s c).calls →
      (PaymentCancel E D s c).resp = .StatusInternalServerError ∧
      (PaymentCancel E D s c).db = s ∧
      ∀ x ∈ (PaymentCancel E D s c).calls, x.isEmail = false ∧ x.isHook = false) := by
  refine ⟨?_, ?_, ?_⟩
  · simp only [PaymentCallback, PaymentCallback.finish]
    repeat' split
    all_goals
      intro h
      first
        | (simp at h; done)
        | simp [Call.isEmail, Call.isHook]
  · simp only [PaymentSuccess]
    split
    · intro h; simp at h
    split
    · intro h; simp at h
    split
    · intro h; simp at h
    split
    · intro h; simp at h
    have hr := resolve_spec E D s c
      { CartID := c.Query "cart_id", PaymentSystem := c.Query "payment_system" }
      (c.Query "cart_id")
    split
    · rename_i returned hret
      intro h
      have := ((hr.1 _ hret).2.1 _ h).1
      simp [Call.isWrite] at this
    · rename_i resolved log1 hok
      intro h
      exact (success_finish_spec E D s resolved log1 (hr.2 _ _ hok).1).2.2.2 _ h
  · simp only [PaymentCancel]
    repeat' split
    all_goals
      intro h
      first
        | (simp at h; done)
        | simp [Call.isEmail, Call.isHook]

/-- Handler `Payment` does not look at the error of `AddCart`: when the mailer
and the webhook sink deliver, a request whose `AddCart` failed is answered with
200 after the prepayment email and the initiation webhook were sent; the store
holds no cart for them. -/
theorem Payment_ignores_addCart_error {σ : Type} (E : Env) (D : DB σ) (s : σ) (c : Ctx)
    (row : models.Cart)
    (hadd : Call.AddCart row false ∈ (Payment E D s c).calls)
    (hmail : ∀ email total currency paymentURL,
      E.SendPrepaymentLetter email total currency paymentURL = none)
    (hhook : ∀ hook, E.SendPaymentHook hook = none) :
    (Payment E D s c).resp.code = 200 ∧
    (Payment E D s c).db = s ∧
    (∃ x ∈ (Payment E D s c).calls, x.isEmail = true) ∧
    (∃ x ∈ (Payment E D s c).calls, x.isHook = true) := by
  revert hadd
  simp only [Payment]
  split
  · intro h; simp at h
  split
  · intro h; simp at h
  split
  · intro h; simp at h
  rename_i payment _ _ domain currency _ _ products _
  have hq := session_quiet E D s
    (litepay.New ("https://" ++ domain ++ "/cart/payment/callback")
      ("https://" ++ domain ++ "/cart/payment/success")
      ("https://" ++ domain ++ "/cart/payment/cancel"))
    { ID := E.RandomString, Currency := currency
      Items := products.map (buildItem domain payment.Products) }
    ("https://" ++ domain ++ "/cart") payment.Provider
    [.GetSettingByKey true, .ListProducts payment.Products true]
    (by simp [quiet, Call.isWrite, Call.isEmail, Call.isHook])
  split
  · rename_i returned hret
    intro h
    have := ((hq.1 _ hret).2 _ h).1
    simp [Call.isWrite] at this
  · rename_i url log1 hok
    have hlog : ∀ r b, Call.AddCart r b ∉ log1 := fun r b hin => by
      have := (hq.2 _ _ hok _ hin).1
      simp [Call.isWrite] at this
    simp only [Payment.finish, hmail, hhook]
    cases hres : D.AddCart s (Payment.row payment
      { ID := E.RandomString, Currency := currency
        Items := products.map (buildItem domain payment.Products) }) with
    | ok s1 =>
      intro h
      simp [hlog] at h
    | error e =>
      intro _
      exact ⟨rfl, rfl,
        ⟨_, List.mem_append_left _ (List.mem_append_right _ (List.mem_singleton.2 rfl)), rfl⟩,
        ⟨_, List.mem_append_right _ (List.mem_singleton.2 rfl), rfl⟩⟩

/-- C10, failing input.  The database refuses writes.  The Stripe initiation
of the scenario calls `AddCart`, which fails; `Payment` still sends the
prepayment email and the initiation webhook and answers 200 with the payment
URL, while the store holds no cart. -/
theorem Payment_addCart_error_unnoticed :
    (Payment okEnv readOnlyDB shop initiateCtx).calls =
      [.GetSettingByKey true,
       .ListProducts [{ ProductID := "X", Quantity := 2 }, { ProductID := "Y", Quantity := 1 }] true,
       .GetSettingByGroup litepay.STRIPE true,
       .Pay ((litepay.New "https://shop.example/cart/payment/callback"
              "https://shop.example/cart/payment/success"
              "https://shop.example/cart/payment/cancel").Stripe "sk")
            { ID := "cart-1", Currency := "USD"
              Items := shop.products.map (buildItem "shop.example"
                [{ ProductID := "X", Quantity := 2 }, { ProductID := "Y", Quantity := 1 }]) } true,
       .AddCart initiateRow false,
       .SendPrepaymentLetter "buyer@example.com" 2200 "USD" "https://pay.example/stripe/cart-1" true,
       .SendPaymentHook
          { Event := webhook.PAYMENT_INITIATION, TimeStamp := 1700000000
            Data := { PaymentSystem := litepay.STRIPE, PaymentStatus := litepay.NEW
                      CartID := "cart-1", TotalAmount := 2200, Currency := "USD"
                      CartItems := shop.products.map (buildItem "shop.example"
                        [{ ProductID := "X", Quantity := 2 },
                         { ProductID := "Y", Quantity := 1 }]) } } true] ∧
    (Payment okEnv readOnlyDB shop initiateCtx).resp
      = .Json 200 "Payment url" "https://pay.example/stripe/cart-1" ∧
    (Payment okEnv readOnlyDB shop initiateCtx).resp.code = 200 ∧
    (Payment okEnv readOnlyDB shop initiateCtx).db.carts = [] := by
  decide

/-! ## Notifications that fail after the store write -/

theorem filter_isWrite_quiet (l : List Call) (h : ∀ x ∈ l, quiet x) :
    l.filter Call.isWrite = [] := by
  rw [List.filter_eq_nil_iff]
  intro x hx
  simp [(h x hx).1]

theorem not_notification_of_quiet (l : List Call) (h : ∀ x ∈ l, quiet x) (x : Call)
    (hx : x ∈ l) : x.isNotification = false := by
  simp [Call.isNotification, (h x hx).2.1, (h x hx).2.2]

/-- Lines 159-200 of `Payment` when a notification fails after `AddCart` went
through: the answer is 500, `AddCart` is the only write, the store is the one
it produced, and the failed notification is the last call. -/
theorem finish_notification_failure {σ : Type} (E : Env) (D : DB σ) (s : σ)
    (payment : models.CartPayment) (cart : litepay.Cart) (url : String) (pre : List Call)
    (hpre : ∀ x ∈ pre, quiet x) (row : models.Cart) (x : Call)
    (hadd : Call.AddCart row true ∈ (Payment.finish E D s payment cart url pre).calls)
    (hx : x ∈ (Payment.finish E D s payment cart url pre).calls)
    (hnote : x.isNotification = true) (hfail : x.failed = true) :
    (Payment.finish E D s payment cart url pre).resp = .StatusInternalServerError ∧
    (Payment.finish E D s payment cart url pre).calls.filter Call.isWrite
      = [Call.AddCart row true] ∧
    D.AddCart s row = .ok (Payment.finish E D s payment cart url pre).db ∧
    (Payment.finish E D s payment cart url pre).calls.getLast? = some x := by
  have hw := filter_isWrite_quiet pre hpre
  have hn := not_notification_of_quiet pre hpre
  have hrow : ∀ r b, Call.AddCart r b ∉ pre := fun r b hin => by
    have := (hpre _ hin).1
    simp [Call.isWrite] at this
  have hxpre : x ∉ pre := fun hin => by
    have := hn x hin
    rw [hnote] at this
    exact absurd this (by decide)
  revert hadd hx
  simp only [Payment.finish]
  cases hres : D.AddCart s (Payment.row payment cart) with
  | error e =>
    split <;> [skip; split] <;>
      (intro hadd _
       simp [hrow] at hadd)
  | ok s1 =>
    split
    · intro hadd hx
      simp only [List.mem_append, List.mem_singleton, hrow, false_or, Call.AddCart.injEq,
        and_true, reduceCtorEq, or_false] at hadd
      subst hadd
      simp only [List.mem_append, List.mem_singleton, hxpre, false_or] at hx
      rcases hx with hx | hx
      · subst hx
        simp [Call.isNotification, Call.isEmail, Call.isHook] at hnote
      · subst hx
        simp [hw, List.filter_append, Call.isWrite, hres]
    · split
      · intro hadd hx
        simp only [List.mem_append, List.mem_singleton, hrow, false_or, Call.AddCart.injEq,
          and_true, reduceCtorEq, or_false] at hadd
        subst hadd
        simp only [List.mem_append, List.mem_singleton, hxpre, false_or] at hx
        rcases hx with (hx | hx) | hx
        · subst hx
          simp [Call.isNotification, Call.isEmail, Call.isHook] at hnote
        · subst hx
          simp [Call.failed] at hfail
        · subst hx
          simp [hw, List.filter_append, Call.isWrite, hres]
      · intro hadd hx
        simp only [List.mem_append, List.mem_singleton, hrow, false_or, Call.AddCart.injEq,
          and_true, reduceCtorEq, or_false] at hadd
        subst hadd
        simp only [List.mem_append, List.mem_singleton, hxpre, false_or] at hx
        rcases hx with (hx | hx) | hx
        · subst hx
          simp [Call.isNotification, Call.isEmail, Call.isHook] at hnote
        · subst hx
          simp [Call.failed] at hfail
        · subst hx
          simp [Call.failed] at hfail

/-- Lines 340-376 of `PaymentSuccess` when a notification fails after
`UpdateCart` went through: the answer is 500, that update is the only write,
the store is the one it produced, and the failed notification is the last call. -/
theorem success_notification_failure {σ : Type} (E : Env) (D : DB σ) (s : σ)
    (payment : litepay.Payment) (pre : List Call) (hpre : ∀ x ∈ pre, quiet x)
    (row : models.Cart) (x : Call)
    (hupd : Call.UpdateCart row true ∈ (PaymentSuccess.finish E D s payment pre).calls)
    (hx : x ∈ (PaymentSuccess.finish E D s payment pre).calls)
    (hnote : x.isNotification = true) (hfail : x.failed = true) :
    (PaymentSuccess.finish E D s payment pre).resp = .StatusInternalServerError ∧
    (PaymentSuccess.finish E D s payment pre).calls.filter Call.isWrite
      = [Call.UpdateCart row true] ∧
    D.UpdateCart s row = .ok (PaymentSuccess.finish E D s payment pre).db ∧
    (PaymentSuccess.finish E D s payment pre).calls.getLast? = some x := by
  have hw := filter_isWrite_quiet pre hpre
  have hn := not_notification_of_quiet pre hpre
  have hrow : ∀ r b, Call.UpdateCart r b ∉ pre := fun r b hin => by
    have := (hpre _ hin).1
    simp [Call.isWrite] at this
  have hxpre : x ∉ pre := fun hin => by
    have := hn x hin
    rw [hnote] at this
    exact absurd this (by decide)
  revert hupd hx
  simp only [PaymentSuccess.finish]
  repeat' split
  all_goals
    intro hupd hx
    (simp only [List.mem_append, List.mem_singleton, hrow, false_or, Call.UpdateCart.injEq,
      and_true, reduceCtorEq, or_false, Bool.true_eq_false, and_false] at hupd) <;>
    (try subst hupd) <;>
    (simp only [List.mem_append, List.mem_singleton, hxpre, false_or] at hx) <;>
    (casesm* _ ∨ _) <;>
    subst_vars <;>
    first
      | (simp [Call.isNotification, Call.isEmail, Call.isHook] at hnote; done)
      | (simp [Call.failed] at hfail; done)
      | simp [hw, List.filter_append, Call.isWrite, *]

/-- Lines 229-266 of `PaymentCallback` when a notification fails after
`UpdateCart` went through. -/
theorem callback_notification_failure {σ : Type} (E : Env) (D : DB σ) (s : σ)
    (payment : litepay.Payment) (row : models.Cart) (x : Call)
    (hupd : Call.UpdateCart row true ∈ (PaymentCallback.finish E D s payment).calls)
    (hx : x ∈ (PaymentCallback.finish E D s payment).calls)
    (hnote : x.isNotification = true) (hfail : x.failed = true) :
    (PaymentCallback.finish E D s payment).resp = .StatusInternalServerError ∧
    (PaymentCallback.finish E D s payment).calls.filter Call.isWrite
      = [Call.UpdateCart row true] ∧
    D.UpdateCart s row = .ok (PaymentCallback.finish E D s payment).db ∧
    (PaymentCallback.finish E D s payment).calls.getLast? = some x := by
  revert hupd hx
  simp only [PaymentCallback.finish]
  repeat' split
  all_goals
    intro hupd hx
    (simp only [List.mem_append, List.mem_singleton, List.mem_cons, List.not_mem_nil, false_or,
      Call.UpdateCart.injEq, and_true, reduceCtorEq, or_false, Bool.true_eq_false,
      and_false] at hupd) <;>
    (try subst hupd) <;>
    (simp only [List.mem_append, List.mem_singleton, List.mem_cons, List.not_mem_nil,
      or_false] at hx) <;>
    (casesm* _ ∨ _) <;>
    subst_vars <;>
    first
      | (simp [Call.isNotification, Call.isEmail, Call.isHook] at hnote; done)
      | (simp [Call.failed] at hfail; done)
      | simp [List.filter_append, Call.isWrite, *]

/-- C11. In `Payment`, `PaymentCallback` and `PaymentSuccess`, when the store
write went through and a notification sent afterwards (email or webhook) fails,
the handler answers 500, the failed notification is its last call, the write
that went through is the only write of the request, and the store is the one
that write produced: the committed status is kept. -/
theorem notification_failure_keeps_commit {σ : Type} (E : Env) (D : DB σ) (s : σ) (c : Ctx)
    (row : models.Cart) (x : Call) (hnote : x.isNotification = true) (hfail : x.failed = true) :
    (Call.AddCart row true ∈ (Payment E D s c).calls → x ∈ (Payment E D s c).calls →
      (Payment E D s c).resp = .StatusInternalServerError ∧
      (Payment E D s c).calls.filter Call.isWrite = [Call.AddCart row true] ∧
      D.AddCart s row = .ok (Payment E D s c).db ∧
      (Payment E D s c).calls.getLast? = some x) ∧
    (Call.UpdateCart row true ∈ (PaymentCallback E D s c).calls →
      x ∈ (PaymentCallback E D s c).calls →
      (PaymentCallback E D s c).resp = .StatusInternalServerError ∧
      (PaymentCallback E D s c).calls.filter Call.isWrite = [Call.UpdateCart row true] ∧
      D.UpdateCart s row = .ok (PaymentCallback E D s c).db ∧
      (PaymentCallback E D s c).calls.getLast? = some x) ∧
    (Call.UpdateCart row true ∈ (PaymentSuccess E D s c).calls →
      x ∈ (PaymentSuccess E D s c).calls →
      (PaymentSuccess E D s c).resp = .StatusInternalServerError ∧
      (PaymentSuccess E D s c).calls.filter Call.isWrite = [Call.UpdateCart row true] ∧
      D.UpdateCart s row = .ok (PaymentSuccess E D s c).db ∧
      (PaymentSuccess E D s c).calls.getLast? = some x) := by
  refine ⟨?_, ?_, ?_⟩
  · simp only [Payment]
    split
    · intro h; simp at h
    split
    · intro h; simp at h
    split
    · intro h; simp at h
    rename_i payment _ _ domain currency _ _ products _
    have hq := session_quiet E D s
      (litepay.New ("https://" ++ domain ++ "/cart/payment/callback")
        ("https://" ++ domain ++ "/cart/payment/success")
        ("https://" ++ domain ++ "/cart/payment/cancel"))
      { ID := E.RandomString, Currency := currency
        Items := products.map (buildItem domain payment.Products) }
      ("https://" ++ domain ++ "/cart") payment.Provider
      [.GetSettingByKey true, .ListProducts payment.Products true]
      (by simp [quiet, Call.isWrite, Call.isEmail, Call.isHook])
    split
    · rename_i returned hret
      intro h
      have := ((hq.1 _ hret).2 _ h).1
      simp [Call.isWrite] at this
    · rename_i url log1 hok
      intro hadd hx
      exact finish_notification_failure E D s payment _ url log1 (hq.2 _ _ hok) row x hadd hx
        hnote hfail
  · simp only [PaymentCallback]
    split
    · split
      · intro h; simp at h
      · intro hupd hx
        exact callback_notification_failure E D s _ row x hupd hx hnote hfail
    · intro hupd hx
      exact callback_notification_failure E D s _ row x hupd hx hnote hfail
  · simp only [PaymentSuccess]
    split
    · intro h; simp at h
    split
    · intro h; simp at h
    split
    · intro h; simp at h
    split
    · intro h; simp at h
    have hr := resolve_spec E D s c
      { CartID := c.Query "cart_id", PaymentSystem := c.Query "payment_system" }
      (c.Query "cart_id")
    split
    · rename_i returned hret
      intro h
      have := ((hr.1 _ hret).2.1 _ h).1
      simp [Call.isWrite] at this
    · rename_i resolved log1 hok
      intro hupd hx
      exact success_notification_failure E D s resolved log1 (hr.2 _ _ hok).1 row x hupd hx
        hnote hfail

/-- C11, instances: the scenario's initiation with the mailer down, a
Spectrocoin callback resolving to PAID with the webhook sink down, and a Stripe
success redirect with the mailer down.  Each is answered with 500 and the cart
stays as the write left it: NEW after initiation, PAID after the callback and
the success redirect. -/
theorem notification_failure_keeps_commit_witness :
    ((Payment mailDownEnv storeDB shop initiateCtx).resp = .StatusInternalServerError ∧
      (Payment mailDownEnv storeDB shop initiateCtx).calls.filter Call.isWrite
        = [Call.AddCart initiateRow true] ∧
      storeDB.AddCart shop initiateRow = .ok (Payment mailDownEnv storeDB shop initiateCtx).db ∧
      (Payment mailDownEnv storeDB shop initiateCtx).calls.getLast?
        = some (Call.SendPrepaymentLetter "buyer@example.com" 2200 "USD"
            "https://pay.example/stripe/cart-1" false)) ∧
    (PaymentCallback hookDownEnv storeDB (shopWith (storedCart litepay.SPECTROCOIN "" litepay.NEW))
        callbackCtx).resp = .StatusInternalServerError ∧
    (PaymentCallback hookDownEnv storeDB (shopWith (storedCart litepay.SPECTROCOIN "" litepay.NEW))
        callbackCtx).db.carts = [storedCart litepay.SPECTROCOIN "merchant-1" litepay.PAID] ∧
    (PaymentSuccess mailDownEnv storeDB (shopWith (storedCart litepay.STRIPE "" litepay.NEW))
        (queryCtx "cart-1" litepay.STRIPE)).resp = .StatusInternalServerError ∧
    (PaymentSuccess mailDownEnv storeDB (shopWith (storedCart litepay.STRIPE "" litepay.NEW))
        (queryCtx "cart-1" litepay.STRIPE)).db.carts
      = [storedCart litepay.STRIPE "merchant-1" litepay.PAID] :=
  ⟨(notification_failure_keeps_commit mailDownEnv storeDB shop initiateCtx initiateRow
      (Call.SendPrepaymentLetter "buyer@example.com" 2200 "USD"
        "https://pay.example/stripe/cart-1" false) rfl rfl).1 (by decide) (by decide),
    ((notification_failure_keeps_commit hookDownEnv storeDB
      (shopWith (storedCart litepay.SPECTROCOIN "" litepay.NEW)) callbackCtx
      { ID := "cart-1", PaymentID := "merchant-1", PaymentStatus := litepay.PAID
        PaymentSystem := litepay.SPECTROCOIN }
      (Call.SendPaymentHook
        { Event := webhook.PAYMENT_CALLBACK, TimeStamp := 1700000000
          Data := { PaymentSystem := litepay.SPECTROCOIN, PaymentStatus := litepay.PAID
                    CartID := "cart-1" } } false) rfl rfl).2.1 (by decide) (by decide)).1,
    by decide,
    ((notification_failure_keeps_commit mailDownEnv storeDB
      (shopWith (storedCart litepay.STRIPE "" litepay.NEW)) (queryCtx "cart-1" litepay.STRIPE)
      { ID := "cart-1", PaymentID := "merchant-1", PaymentStatus := litepay.PAID
        PaymentSystem := litepay.STRIPE }
      (Call.SendCartLetter "cart-1" false) rfl rfl).2.2 (by decide) (by decide)).1,
    by decide⟩

/-! ## Quantities -/

/-- The quantity of an item is 1 or the quantity of a submitted cart line. -/
theorem quantityOf_cases (lines : List models.CartProduct) (id : String) :
    quantityOf lines id = 1 ∨ ∃ line ∈ lines, quantityOf lines id = line.Quantity := by
  unfold quantityOf
  suffices h : ∀ (acc : Int),
      lines.foldl (fun quantity cartProduct =>
        if cartProduct.ProductID = id then cartProduct.Quantity else quantity) acc = acc ∨
      ∃ line ∈ lines, lines.foldl (fun quantity cartProduct =>
        if cartProduct.ProductID = id then cartProduct.Quantity else quantity) acc
          = line.Quantity from h 1
  induction lines with
  | nil => intro acc; exact Or.inl rfl
  | cons line rest ih =>
    intro acc
    simp only [List.foldl_cons]
    by_cases hid : line.ProductID = id
    · simp only [hid, if_true]
      rcases ih line.Quantity with h | ⟨l, hl, h⟩
      · exact Or.inr ⟨line, List.mem_cons_self _ _, h⟩
      · exact Or.inr ⟨l, List.mem_cons_of_mem _ hl, h⟩
    · simp only [hid, if_false]
      rcases ih acc with h | ⟨l, hl, h⟩
      · exact Or.inl h
      · exact Or.inr ⟨l, List.mem_cons_of_mem _ hl, h⟩

/-- Every call of `session.Pay` in the provider switch of `Payment` is made
with the cart the switch was given. -/
theorem session_pay_cart {σ : Type} (E : Env) (D : DB σ) (s : σ) (pay : litepay.Pay)
    (cart : litepay.Cart) (paymentURL : String) (paymentSystem : litepay.PaymentSystem)
    (log0 : List Call) (h0 : ∀ x ∈ log0, x.isProvider = false) :
    (∀ returned, Payment.session E D s pay cart paymentURL paymentSystem log0 = .error returned →
      ∀ session cart1 ok, Call.Pay session cart1 ok ∈ returned.calls → cart1 = cart) ∧
    (∀ url log1, Payment.session E D s pay cart paymentURL paymentSystem log0 = .ok (url, log1) →
      ∀ session cart1 ok, Call.Pay session cart1 ok ∈ log1 → cart1 = cart) := by
  have hlog : ∀ session cart1 ok, Call.Pay session cart1 ok ∉ log0 :=
    fun session cart1 ok hin => by
      have := h0 _ hin
      simp [Call.isProvider] at this
  simp only [Payment.session]
  repeat' split
  all_goals
    refine ⟨fun returned h session cart1 ok hmem => ?_,
      fun url log1 h session cart1 ok hmem => ?_⟩
    all_goals first
      | (simp at h; done)
      | (simp only [Except.error.injEq] at h
         subst h
         simp [hlog] at hmem
         try exact hmem.2.1)
      | (simp only [Except.ok.injEq, Prod.mk.injEq] at h
         obtain ⟨_, h2⟩ := h
         subst h2
         simp [hlog] at hmem
         try exact hmem.2.1)

/-- The webhook of lines 159-200 of `Payment` carries the items of the cart. -/
theorem finish_hook_items {σ : Type} (E : Env) (D : DB σ) (s : σ) (payment : models.CartPayment)
    (cart : litepay.Cart) (url : String) (pre : List Call) (hpre : ∀ x ∈ pre, quiet x)
    (hook : webhook.Payment) (ok : Bool)
    (h : Call.SendPaymentHook hook ok ∈ (Payment.finish E D s payment cart url pre).calls) :
    hook.Data.CartItems = cart.Items := by
  have hh : ∀ k b, Call.SendPaymentHook k b ∉ pre := fun k b hin => by
    have := (hpre _ hin).2.2
    simp [Call.isHook] at this
  simp only [Payment.finish] at h
  split at h <;> [skip; split at h] <;> simp [hh] at h <;> (rw [h.1]; rfl)

/-- C12 as stated fails: the client submits quantity -1 for product X; the cart
`Payment` sends to the provider has one item with quantity -1, and the stored
total is -500. -/
theorem Payment_negative_quantity :
    (paidCarts (Payment okEnv storeDB shop negativeCtx).calls).map
        (fun cart => cart.Items.map (fun item => item.Quantity)) = [[-1]] ∧
    (addedCarts (Payment okEnv storeDB shop negativeCtx).calls).map
        (fun row => row.AmountTotal) = [-500] ∧
    ¬ ∀ cart ∈ paidCarts (Payment okEnv storeDB shop negativeCtx).calls,
        ∀ item ∈ cart.Items, 1 ≤ item.Quantity := by
  decide

/-- C12, amended. For every initiation request there is one list of items, the
items of the cart `Payment` builds from the catalogue lookup: it is the item
list of every cart sent to a provider, the list summed into the `AmountTotal`
of every row handed to `AddCart`, and the item list of every webhook.  Each of
its items has as quantity 1 or the quantity of a submitted cart line, so each
has quantity at least 1 whenever every submitted quantity is at least 1. -/
theorem Payment_quantities {σ : Type} (E : Env) (D : DB σ) (s : σ) (c : Ctx)
    (payment : models.CartPayment) (hbody : c.BodyCartPayment = .ok payment) :
    ∃ items : List litepay.Item,
      (∀ domain currency products, D.GetSettingByKey s = .ok (domain, currency) →
        D.ListProducts s payment.Products = .ok products →
        items = products.map (buildItem domain payment.Products)) ∧
      (∀ session cart ok, Call.Pay session cart ok ∈ (Payment E D s c).calls →
        cart.Items = items) ∧
      (∀ row ok, Call.AddCart row ok ∈ (Payment E D s c).calls →
        row.AmountTotal = amountTotal items) ∧
      (∀ hook ok, Call.SendPaymentHook hook ok ∈ (Payment E D s c).calls →
        hook.Data.CartItems = items) ∧
      (∀ item ∈ items,
        (item.Quantity = 1 ∨ ∃ line ∈ payment.Products, item.Quantity = line.Quantity) ∧
        ((∀ line ∈ payment.Products, 1 ≤ line.Quantity) → 1 ≤ item.Quantity)) := by
  have hitem : ∀ (domain : String) (products : List models.Product),
      ∀ item ∈ products.map (buildItem domain payment.Products),
        (item.Quantity = 1 ∨ ∃ line ∈ payment.Products, item.Quantity = line.Quantity) ∧
        ((∀ line ∈ payment.Products, 1 ≤ line.Quantity) → 1 ≤ item.Quantity) := by
    intro domain products item hmem
    obtain ⟨product, _, rfl⟩ := List.mem_map.1 hmem
    have hcases := quantityOf_cases payment.Products product.ID
    refine ⟨hcases, fun hlines => ?_⟩
    rcases hcases with h | ⟨line, hl, h⟩
    · show 1 ≤ quantityOf payment.Products product.ID
      rw [h]
    · show 1 ≤ quantityOf payment.Products product.ID
      rw [h]
      exact hlines line hl
  simp only [Payment, hbody]
  split
  · rename_i hkey
    refine ⟨[], fun domain currency products h _ => ?_, by simp, by simp, by simp, by simp⟩
    rw [hkey] at h
    simp at h
  split
  · rename_i hprod
    refine ⟨[], fun domain currency products _ h => ?_, by simp, by simp, by simp, by simp⟩
    rw [hprod] at h
    simp at h
  rename_i domain currency hkey _ products hprod
  have hq := session_quiet E D s
    (litepay.New ("https://" ++ domain ++ "/cart/payment/callback")
      ("https://" ++ domain ++ "/cart/payment/success")
      ("https://" ++ domain ++ "/cart/payment/cancel"))
    { ID := E.RandomString, Currency := currency
      Items := products.map (buildItem domain payment.Products) }
    ("https://" ++ domain ++ "/cart") payment.Provider
    [.GetSettingByKey true, .ListProducts payment.Products true]
    (by simp [quiet, Call.isWrite, Call.isEmail, Call.isHook])
  have hp := session_pay_cart E D s
    (litepay.New ("https://" ++ domain ++ "/cart/payment/callback")
      ("https://" ++ domain ++ "/cart/payment/success")
      ("https://" ++ domain ++ "/cart/payment/cancel"))
    { ID := E.RandomString, Currency := currency
      Items := products.map (buildItem domain payment.Products) }
    ("https://" ++ domain ++ "/cart") payment.Provider
    [.GetSettingByKey true, .ListProducts payment.Products true]
    (by simp [Call.isProvider])
  have hitems : ∀ domain1 currency1 products1,
      D.GetSettingByKey s = .ok (domain1, currency1) →
      D.ListProducts s payment.Products = .ok products1 →
      products.map (buildItem domain payment.Products)
        = products1.map (buildItem domain1 payment.Products) := by
    intro domain1 currency1 products1 h1 h2
    rw [hkey] at h1
    rw [hprod] at h2
    simp only [Except.ok.injEq, Prod.mk.injEq] at h1 h2
    rw [h1.1, h2]
  refine ⟨products.map (buildItem domain payment.Products), hitems, ?_, ?_, ?_,
    hitem domain products⟩
  · intro session cart ok
    split
    · rename_i returned hret
      intro h
      rw [hp.1 _ hret _ _ _ h]
    · rename_i url log1 hok
      intro h
      rw [hp.2 _ _ hok _ _ _ (finish_pay _ _ _ _ _ _ _ _ _ _ h)]
  · intro row ok
    split
    · rename_i returned hret
      intro h
      have := ((hq.1 _ hret).2 _ h).1
      simp [Call.isWrite] at this
    · rename_i url log1 hok
      intro h
      rcases finish_addCart _ _ _ _ _ _ _ _ _ h with h1 | h1
      · have := (hq.2 _ _ hok _ h1).1
        simp [Call.isWrite] at this
      · exact h1
  · intro hook ok
    split
    · rename_i returned hret
      intro h
      have := ((hq.1 _ hret).2 _ h).2.2
      simp [Call.isHook] at this
    · rename_i url log1 hok
      intro h
      exact finish_hook_items _ _ _ _ _ _ _ (hq.2 _ _ hok) _ _ h

/-- C12, amended, two instances.  The scenario's request submits quantities 2
and 1 and the items sent to Stripe have these quantities.  The request that
submits -1 for product X is covered as well: its one item has the submitted
quantity -1, and that item is what is summed into the stored total. -/
theorem Payment_quantities_witness :
    (paidCarts (Payment okEnv storeDB shop initiateCtx).calls).map
        (fun cart => cart.Items.map (fun item => item.Quantity)) = [[2, 1]] ∧
    (∃ items : List litepay.Item,
      (∀ domain currency products, storeDB.GetSettingByKey shop = .ok (domain, currency) →
        storeDB.ListProducts shop
            [{ ProductID := "X", Quantity := 2 }, { ProductID := "Y", Quantity := 1 }]
          = .ok products →
        items = products.map (buildItem domain
          [{ ProductID := "X", Quantity := 2 }, { ProductID := "Y", Quantity := 1 }])) ∧
      (∀ session cart ok,
        Call.Pay session cart ok ∈ (Payment okEnv storeDB shop initiateCtx).calls →
        cart.Items = items) ∧
      (∀ row ok, Call.AddCart row ok ∈ (Payment okEnv storeDB shop initiateCtx).calls →
        row.AmountTotal = amountTotal items) ∧
      (∀ hook ok, Call.SendPaymentHook hook ok ∈ (Payment okEnv storeDB shop initiateCtx).calls →
        hook.Data.CartItems = items) ∧
      (∀ item ∈ items,
        (item.Quantity = 1 ∨
          ∃ line ∈ ([{ ProductID := "X", Quantity := 2 }, { ProductID := "Y", Quantity := 1 }] :
            List models.CartProduct), item.Quantity = line.Quantity) ∧
        ((∀ line ∈ ([{ ProductID := "X", Quantity := 2 }, { ProductID := "Y", Quantity := 1 }] :
            List models.CartProduct), 1 ≤ line.Quantity) → 1 ≤ item.Quantity))) ∧
    (∃ items : List litepay.Item,
      (∀ domain currency products, storeDB.GetSettingByKey shop = .ok (domain, currency) →
        storeDB.ListProducts shop [{ ProductID := "X", Quantity := -1 }] = .ok products →
        items = products.map (buildItem domain [{ ProductID := "X", Quantity := -1 }])) ∧
      (∀ session cart ok,
        Call.Pay session cart ok ∈ (Payment okEnv storeDB shop negativeCtx).calls →
        cart.Items = items) ∧
      (∀ row ok, Call.AddCart row ok ∈ (Payment okEnv storeDB shop negativeCtx).calls →
        row.AmountTotal = amountTotal items) ∧
      (∀ hook ok, Call.SendPaymentHook hook ok ∈ (Payment okEnv storeDB shop negativeCtx).calls →
        hook.Data.CartItems = items) ∧
      (∀ item ∈ items,
        (item.Quantity = 1 ∨
          ∃ line ∈ ([{ ProductID := "X", Quantity := -1 }] : List models.CartProduct),
            item.Quantity = line.Quantity) ∧
        ((∀ line ∈ ([{ ProductID := "X", Quantity := -1 }] : List models.CartProduct),
            1 ≤ line.Quantity) → 1 ≤ item.Quantity))) :=
  ⟨by decide,
    Payment_quantities okEnv storeDB shop initiateCtx
      { Email := "buyer@example.com", Provider := litepay.STRIPE
        Products := [{ ProductID := "X", Quantity := 2 }, { ProductID := "Y", Quantity := 1 }] }
      rfl,
    Payment_quantities okEnv storeDB shop negativeCtx
      { Email := "buyer@example.com", Provider := litepay.STRIPE
        Products := [{ ProductID := "X", Quantity := -1 }] }
      rfl⟩

/-! ## The provider reference handed to the store -/

/-- When the provider switch of `PaymentSuccess` goes on, the merchant ID of the
payment is the one a `Checkout` answered, or, for a payment system that is
neither Stripe nor PayPal, the one the payment had before. -/
theorem resolve_reference {σ : Type} (E : Env) (D : DB σ) (s : σ) (c : Ctx)
    (payment : litepay.Payment) (id : String) (resolved : litepay.Payment) (log1 : List Call)
    (h : PaymentSuccess.resolve E D s c payment [.Cart id true] = .ok (resolved, log1)) :
    (payment.PaymentSystem ≠ litepay.STRIPE ∧ payment.PaymentSystem ≠ litepay.PAYPAL ∧
      resolved.MerchantID = payment.MerchantID) ∨
    ∃ session token response,
      Call.Checkout session payment token (some response) ∈ log1 ∧
      resolved.MerchantID = response.MerchantID := by
  revert h
  simp only [PaymentSuccess.resolve]
  repeat' split
  all_goals
    intro h
    first
      | (simp at h; done)
      | (simp only [Except.ok.injEq, Prod.mk.injEq] at h
         obtain ⟨h1, h2⟩ := h
         subst h1 h2
         first
           | exact Or.inl ⟨by assumption, by assumption, rfl⟩
           | exact Or.inr ⟨_, _, _, List.mem_append_right _ (List.mem_singleton.2 rfl), rfl⟩)

/-- C13 as stated fails: the cart is stored with provider reference
"merchant-1"; a cancel redirect carrying its ID makes `PaymentCancel` hand an
empty provider reference to `UpdateCart`, and the store then holds the cart
with an empty reference. -/
theorem PaymentCancel_empties_reference :
    (shopWith (storedCart litepay.STRIPE "merchant-1" litepay.FAILED)).carts.map
        (fun row => (row.ID, row.PaymentID)) = [("cart-1", "merchant-1")] ∧
    (updatedCarts (PaymentCancel okEnv storeDB
        (shopWith (storedCart litepay.STRIPE "merchant-1" litepay.FAILED))
        (queryCtx "cart-1" litepay.STRIPE)).calls).map (fun row => (row.ID, row.PaymentID))
      = [("cart-1", "")] ∧
    (PaymentCancel okEnv storeDB
        (shopWith (storedCart litepay.STRIPE "merchant-1" litepay.FAILED))
        (queryCtx "cart-1" litepay.STRIPE)).db.carts.map (fun row => (row.ID, row.PaymentID))
      = [("cart-1", "")] := by
  decide

/-- C13, amended. The provider reference a completion handler hands to
`UpdateCart` is the one resolved within the request, whatever reference is
stored: `PaymentCancel` always hands the empty value; `PaymentCallback` hands
the merchant API ID of the body for a Spectrocoin callback and the empty value
for any other payment system; `PaymentSuccess` hands the merchant ID that a
`Checkout` of this request answered, and the empty value when the payment
system is neither Stripe nor PayPal. -/
theorem update_reference {σ : Type} (E : Env) (D : DB σ) (s : σ) (c : Ctx) :
    (∀ row ok, Call.UpdateCart row ok ∈ (PaymentCancel E D s c).calls → row.PaymentID = "") ∧
    (∀ row ok, Call.UpdateCart row ok ∈ (PaymentCallback E D s c).calls →
      (c.Query "payment_system" = litepay.SPECTROCOIN ∧
        ∃ response, c.BodyCallbackSpectrocoin = .ok response ∧
          row.PaymentID = response.MerchantApiID) ∨
      (c.Query "payment_system" ≠ litepay.SPECTROCOIN ∧ row.PaymentID = "")) ∧
    (∀ row ok, Call.UpdateCart row ok ∈ (PaymentSuccess E D s c).calls →
      (∃ session payment token response,
        Call.Checkout session payment token (some response) ∈ (PaymentSuccess E D s c).calls ∧
        row.PaymentID = response.MerchantID) ∨
      (c.Query "payment_system" ≠ litepay.STRIPE ∧ c.Query "payment_system" ≠ litepay.PAYPAL ∧
        row.PaymentID = "")) := by
  refine ⟨?_, ?_, ?_⟩
  · intro row ok
    simp only [PaymentCancel]
    repeat' split
    all_goals
      intro h
      simp at h
      rw [h.1]
  · intro row ok
    simp only [PaymentCallback, PaymentCallback.finish]
    repeat' split
    all_goals
      intro h
      (simp at h) <;>
      first
        | exact Or.inl ⟨by assumption, _, by assumption, by rw [h.1]; rfl⟩
        | exact Or.inr ⟨by assumption, by rw [h.1]; rfl⟩
  · intro row ok
    simp only [PaymentSuccess]
    split
    · simp
    split
    · simp
    split
    · simp
    split
    · simp
    have hr := resolve_spec E D s c
      { CartID := c.Query "cart_id", PaymentSystem := c.Query "payment_system" }
      (c.Query "cart_id")
    split
    · rename_i returned hret
      intro h
      have := ((hr.1 _ hret).2.1 _ h).1
      simp [Call.isWrite] at this
    · rename_i resolved log1 hok
      intro h
      have hq := (hr.2 _ _ hok).1
      have hrow := (success_finish_spec E D s resolved log1 hq).1 _ _ h
      rcases resolve_reference E D s c _ _ _ _ hok with ⟨h1, h2, h3⟩ | ⟨session, token, resp, hin, hm⟩
      · exact Or.inr ⟨h1, h2, by rw [hrow]; exact h3⟩
      · refine Or.inl ⟨session,
          { CartID := c.Query "cart_id", PaymentSystem := c.Query "payment_system" }, token,
          resp, ?_, by rw [hrow]; exact hm⟩
        simp only [PaymentSuccess.finish]
        repeat' split
        all_goals simp [hin]

/-- C13, amended, an instance: the Spectrocoin callback of the scenario hands
the merchant API ID of its body to `UpdateCart`. -/
theorem update_reference_witness :
    Call.UpdateCart
        { ID := "cart-1", PaymentID := "merchant-1", PaymentStatus := litepay.PAID
          PaymentSystem := litepay.SPECTROCOIN } true
      ∈ (PaymentCallback okEnv storeDB (shopWith (storedCart litepay.SPECTROCOIN "" litepay.NEW))
          callbackCtx).calls ∧
    ((callbackCtx.Query "payment_system" = litepay.SPECTROCOIN ∧
        ∃ response, callbackCtx.BodyCallbackSpectrocoin = .ok response ∧
          (models.Cart.mk "cart-1" "" [] 0 "" "merchant-1" litepay.PAID
            litepay.SPECTROCOIN).PaymentID = response.MerchantApiID) ∨
      (callbackCtx.Query "payment_system" ≠ litepay.SPECTROCOIN ∧
        (models.Cart.mk "cart-1" "" [] 0 "" "merchant-1" litepay.PAID
          litepay.SPECTROCOIN).PaymentID = "")) :=
  ⟨by decide,
    (update_reference okEnv storeDB (shopWith (storedCart litepay.SPECTROCOIN "" litepay.NEW))
      callbackCtx).2.1
      (models.Cart.mk "cart-1" "" [] 0 "" "merchant-1" litepay.PAID litepay.SPECTROCOIN) true
      (by decide)⟩

/-! ## The success redirect without a cart ID -/

/-- C14. A success redirect whose `cart_id` query parameter is absent or empty
is answered with 400 (bad request); the handler makes no call at all: no store
read, no store update, no provider call, no email and no webhook, and the store
is as before. -/
theorem PaymentSuccess_no_cart_id {σ : Type} (E : Env) (D : DB σ) (s : σ) (c : Ctx)
    (hid : c.Query "cart_id" = "") :
    (PaymentSuccess E D s c).resp = .StatusBadRequest none ∧
    (PaymentSuccess E D s c).resp.code = 400 ∧
    (PaymentSuccess E D s c).calls = [] ∧
    (PaymentSuccess E D s c).db = s := by
  simp [PaymentSuccess, hid, Response.code]

/-- C14, an instance: a Stripe success redirect without `cart_id`. -/
theorem PaymentSuccess_no_cart_id_witness :
    (PaymentSuccess okEnv storeDB (shopWith (storedCart litepay.STRIPE "" litepay.NEW))
        (queryCtx "" litepay.STRIPE)).resp = .StatusBadRequest none ∧
    (PaymentSuccess okEnv storeDB (shopWith (storedCart litepay.STRIPE "" litepay.NEW))
        (queryCtx "" litepay.STRIPE)).resp.code = 400 ∧
    (PaymentSuccess okEnv storeDB (shopWith (storedCart litepay.STRIPE "" litepay.NEW))
        (queryCtx "" litepay.STRIPE)).calls = [] ∧
    (PaymentSuccess okEnv storeDB (shopWith (storedCart litepay.STRIPE "" litepay.NEW))
        (queryCtx "" litepay.STRIPE)).db = shopWith (storedCart litepay.STRIPE "" litepay.NEW) :=
  PaymentSuccess_no_cart_id okEnv storeDB (shopWith (storedCart litepay.STRIPE "" litepay.NEW))
    (queryCtx "" litepay.STRIPE) rfl

/-! ## The key of the Spectrocoin status -/

theorem runeString_length (r : Int) : (runeString r).length = 1 := by
  unfold runeString
  split <;> rfl

theorem runeString_codePoint (n : Int) (h : isCodePoint n) :
    runeString (toRune n) = String.singleton (Char.ofNat n.toNat) ∧
    (Char.ofNat n.toNat).toNat = n.toNat := by
  unfold isCodePoint at h
  have ht : toRune n = n := by
    unfold toRune
    omega
  rw [ht]
  constructor
  · unfold runeString
    rw [if_pos h]
  · have hv : n.toNat.isValidChar := by
      unfold Nat.isValidChar
      omega
    simp only [Char.ofNat, hv, dite_true, Char.toNat, Char.ofNatAux]
    rfl

theorem runeString_ne_decimal (n : Int) (h0 : 0 ≤ n) (h9 : n ≤ 9) :
    runeString (toRune n) ≠ toString n := by
  interval_cases n <;> decide

/-- C15. For a Spectrocoin callback with status code `n`, the status
`PaymentCallback` hands to `UpdateCart` is what `litepay.StatusPayment` answers
for the key `string(rune(n))`.  That key is always a string of one code point;
it is the code point `n` itself whenever `n` is a Unicode scalar value, and for
every `n` from 0 to 9 it differs from the decimal text of `n`. -/
theorem PaymentCallback_status_key {σ : Type} (E : Env) (D : DB σ) (s : σ) (c : Ctx)
    (response : litepay.CallbackSpectrocoin)
    (hsystem : c.Query "payment_system" = litepay.SPECTROCOIN)
    (hbody : c.BodyCallbackSpectrocoin = .ok response) :
    (∃ ok, (PaymentCallback E D s c).calls.head? = some (Call.UpdateCart
      { ID := c.Query "cart_id"
        PaymentID := response.MerchantApiID
        PaymentStatus := E.StatusPayment litepay.SPECTROCOIN (runeString (toRune response.Status))
        PaymentSystem := litepay.SPECTROCOIN } ok)) ∧
    (∀ row ok, Call.UpdateCart row ok ∈ (PaymentCallback E D s c).calls →
      row.PaymentStatus
        = E.StatusPayment litepay.SPECTROCOIN (runeString (toRune response.Status))) ∧
    (runeString (toRune response.Status)).length = 1 ∧
    (isCodePoint response.Status →
      runeString (toRune response.Status)
        = String.singleton (Char.ofNat response.Status.toNat) ∧
      (Char.ofNat response.Status.toNat).toNat = response.Status.toNat) ∧
    (0 ≤ response.Status → response.Status ≤ 9 →
      runeString (toRune response.Status) ≠ toString response.Status) := by
  refine ⟨?_, ?_, runeString_length _, runeString_codePoint _, runeString_ne_decimal _⟩
  · simp only [PaymentCallback, hsystem, hbody, if_true, PaymentCallback.finish, statusRow]
    repeat' split
    all_goals exact ⟨_, rfl⟩
  · intro row ok
    simp only [PaymentCallback, hsystem, hbody, if_true, PaymentCallback.finish, statusRow]
    repeat' split
    all_goals
      intro h
      simp at h
      rw [h.1]

/-- C15, an instance: status code 3 reaches the status mapping as the string of
the code point 3, not as the text "3"; a mapping that answers with its key
makes the handler store that one-character string as the status. -/
theorem PaymentCallback_status_key_witness :
    Call.UpdateCart
        (models.Cart.mk "cart-1" "" [] 0 "" "merchant-1" (String.singleton (Char.ofNat 3))
          litepay.SPECTROCOIN) true
      ∈ (PaymentCallback keyEnv storeDB (shopWith (storedCart litepay.SPECTROCOIN "" litepay.NEW))
          codeThreeCtx).calls ∧
    (models.Cart.mk "cart-1" "" [] 0 "" "merchant-1" (String.singleton (Char.ofNat 3))
        litepay.SPECTROCOIN).PaymentStatus
      = keyEnv.StatusPayment litepay.SPECTROCOIN (runeString (toRune 3)) ∧
    runeString (toRune 3) ≠ toString (3 : Int) ∧
    okEnv.StatusPayment litepay.SPECTROCOIN (runeString (toRune 3)) ≠ litepay.PAID :=
  ⟨by decide,
    (PaymentCallback_status_key keyEnv storeDB
      (shopWith (storedCart litepay.SPECTROCOIN "" litepay.NEW)) codeThreeCtx
      { Status := 3, MerchantApiID := "merchant-1", ReceiveAmount := "22.00"
        ReceiveCurrency := "USD" } rfl rfl).2.1 _ true (by decide),
    (PaymentCallback_status_key keyEnv storeDB
      (shopWith (storedCart litepay.SPECTROCOIN "" litepay.NEW)) codeThreeCtx
      { Status := 3, MerchantApiID := "merchant-1", ReceiveAmount := "22.00"
        ReceiveCurrency := "USD" } rfl rfl).2.2.2.2 (by decide) (by decide),
    by decide⟩

/-! ## Initiation without a known provider -/

theorem session_other {σ : Type} (E : Env) (D : DB σ) (s : σ) (pay : litepay.Pay)
    (cart : litepay.Cart) (paymentURL : String) (paymentSystem : litepay.PaymentSystem)
    (log0 : List Call) (h1 : paymentSystem ≠ litepay.STRIPE) (h2 : paymentSystem ≠ litepay.PAYPAL)
    (h3 : paymentSystem ≠ litepay.SPECTROCOIN) :
    Payment.session E D s pay cart paymentURL paymentSystem log0 = .ok (paymentURL, log0) := by
  simp [Payment.session, h1, h2, h3]

/-- C16. An initiation request that reaches the provider switch (the body
parses, the domain and currency settings and the catalogue lookup answer) and
names a provider that is none of Stripe, PayPal and Spectrocoin, the empty value
included, calls no provider.  With the mailer and the webhook sink delivering,
its calls after the two lookups are `AddCart` of a row with status NEW that
records the provider value, the prepayment email with the fallback URL, and the
`payment_initiation` webhook; the answer is 200 with the payment URL
`https://<domain>/cart`, and the store is the one `AddCart` produced. -/
theorem Payment_other_provider {σ : Type} (E : Env) (D : DB σ) (s : σ) (c : Ctx)
    (payment : models.CartPayment) (domain currency : String) (products : List models.Product)
    (hbody : c.BodyCartPayment = .ok payment)
    (hkey : D.GetSettingByKey s = .ok (domain, currency))
    (hprod : D.ListProducts s payment.Products = .ok products)
    (h1 : payment.Provider ≠ litepay.STRIPE) (h2 : payment.Provider ≠ litepay.PAYPAL)
    (h3 : payment.Provider ≠ litepay.SPECTROCOIN)
    (hmail : ∀ email total currency paymentURL,
      E.SendPrepaymentLetter email total currency paymentURL = none)
    (hhook : ∀ hook, E.SendPaymentHook hook = none) :
    ∃ row hook ok,
      (Payment E D s c).calls =
        [.GetSettingByKey true, .ListProducts payment.Products true, .AddCart row ok,
         .SendPrepaymentLetter payment.Email row.AmountTotal currency
            ("https://" ++ domain ++ "/cart") true,
         .SendPaymentHook hook true] ∧
      row.PaymentStatus = litepay.NEW ∧
      row.PaymentSystem = payment.Provider ∧
      hook.Event = webhook.PAYMENT_INITIATION ∧
      hook.Data.PaymentSystem = payment.Provider ∧
      hook.Data.CartID = row.ID ∧
      (∀ x ∈ (Payment E D s c).calls, x.isProvider = false) ∧
      (Payment E D s c).resp = .Json 200 "Payment url" ("https://" ++ domain ++ "/cart") ∧
      (Payment E D s c).resp.code = 200 ∧
      (∀ s1, D.AddCart s row = .ok s1 → (Payment E D s c).db = s1) := by
  simp only [Payment, hbody, hkey, hprod, session_other _ _ _ _ _ _ _ _ h1 h2 h3]
  obtain ⟨ok, hcalls, hresp, hdb⟩ := finish_delivered E D s payment
    { ID := E.RandomString, Currency := currency
      Items := products.map (buildItem domain payment.Products) }
    ("https://" ++ domain ++ "/cart")
    [.GetSettingByKey true, .ListProducts payment.Products true] hmail hhook
  refine ⟨_, _, ok, hcalls, rfl, rfl, rfl, rfl, rfl, ?_, hresp, by rw [hresp]; rfl, hdb⟩
  rw [hcalls]
  intro x hx
  simp only [List.cons_append, List.nil_append, List.mem_cons, List.mem_singleton,
    List.not_mem_nil, or_false] at hx
  rcases hx with hx | hx | hx | hx | hx <;> subst hx <;> rfl

/-- C16, an instance: the scenario's request with no provider named stores the
NEW cart of 2200 with an empty payment system and is answered with 200 and
`https://shop.example/cart`. -/
theorem Payment_other_provider_witness :
    (Payment providerDownEnv storeDB shop noProviderCtx).db.carts
      = [{ initiateRow with PaymentSystem := "" }] ∧
    ∃ row hook ok,
      (Payment providerDownEnv storeDB shop noProviderCtx).calls =
        [.GetSettingByKey true,
         .ListProducts [{ ProductID := "X", Quantity := 2 }, { ProductID := "Y", Quantity := 1 }]
            true,
         .AddCart row ok,
         .SendPrepaymentLetter "buyer@example.com" row.AmountTotal "USD"
            ("https://" ++ "shop.example" ++ "/cart") true,
         .SendPaymentHook hook true] ∧
      row.PaymentStatus = litepay.NEW ∧
      row.PaymentSystem = "" ∧
      hook.Event = webhook.PAYMENT_INITIATION ∧
      hook.Data.PaymentSystem = "" ∧
      hook.Data.CartID = row.ID ∧
      (∀ x ∈ (Payment providerDownEnv storeDB shop noProviderCtx).calls, x.isProvider = false) ∧
      (Payment providerDownEnv storeDB shop noProviderCtx).resp
        = .Json 200 "Payment url" ("https://" ++ "shop.example" ++ "/cart") ∧
      (Payment providerDownEnv storeDB shop noProviderCtx).resp.code = 200 ∧
      (∀ s1, storeDB.AddCart shop row = .ok s1 →
        (Payment providerDownEnv storeDB shop noProviderCtx).db = s1) :=
  ⟨by decide,
    Payment_other_provider providerDownEnv storeDB shop noProviderCtx
      { Email := "buyer@example.com", Provider := ""
        Products := [{ ProductID := "X", Quantity := 2 }, { ProductID := "Y", Quantity := 1 }] }
      "shop.example" "USD" shop.products rfl rfl rfl (by decide) (by decide) (by decide)
      (fun _ _ _ _ => rfl) (fun _ => rfl)⟩

end Litecart
